import Mathlib

/-!
# Verification of the footing-design program

This file is a shallow embedding, over exact rationals, of `source.py`:
a reinforced-concrete footing design program (class `Footing` with
subclasses `WallFooting` and `ColumnFooting`).

Modelling conventions:

* Python floats are modelled as exact rationals (`ℚ`).  All concrete runs
  evaluated below are chosen so that every square root taken is a square
  root of a perfect square of a rational, where `math.sqrt` is exact.
* `math.sqrt` is modelled by `ratSqrt` (exact on perfect squares) wrapped
  in `pySqrt`, which raises `ValueError` on negative input as Python does.
* Fallible code is modelled in `Except PyErr`.  `PyErr` names the Python
  exception kinds the program can actually raise, plus the two error names
  used by the specification (`invalidCategory`, `nonPhysicalSection`),
  which the program itself never produces, plus `nonTermination`, which
  models an infinite loop (a fueled loop that runs out of fuel).
* The narrative log (`self.log.write(...)`) is write-only in the source:
  the log object is never read.  The core model therefore elides the
  writes; `wallFootingL` / `columnFootingL` below reinstate the
  sink explicitly in order to state the observability claim.
* Python `while` loops are modelled as fuel-indexed recursions returning
  `.error .nonTermination` when the fuel runs out, so a run that returns
  `.ok` corresponds exactly to a terminating Python run.
-/

set_option maxRecDepth 4000

/-- Python exception kinds relevant to `source.py`, plus the two error
names used by the specification and a marker for divergence. -/
inductive PyErr where
  | typeError
  | nameError
  | unboundLocalError
  | valueError
  | attributeError
  | invalidCategory
  | nonPhysicalSection
  | nonTermination
  deriving DecidableEq, Repr

/-- A Python value that is either a float (modelled as `ℚ`) or a string.
Used to model the dynamically-typed arguments of `Footing.set_d`. -/
inductive PyVal where
  | num (q : ℚ)
  | str (s : String)
  deriving DecidableEq, Repr

/-- Python division on dynamic values: dividing anything by or into a
string raises `TypeError`.  (All numeric divisors reached in the source
are the literals `8` and `2`, so `ZeroDivisionError` cannot arise.) -/
def pyDiv (a b : PyVal) : Except PyErr PyVal :=
  match a, b with
  | .num x, .num y => .ok (.num (x / y))
  | _, _ => .error .typeError

/-- Python exception propagation: run `m`; if it raised, the exception
propagates, otherwise continue with its value.  Composition glue for the
model (a raised exception aborts the rest of the Python call). -/
def pyBind (m : Except PyErr α) (f : α → Except PyErr β) : Except PyErr β :=
  match m with
  | .error e => .error e
  | .ok a => f a

/-- Python `min` on two floats (returns the first argument when equal). -/
def pyMin (a b : ℚ) : ℚ := if a ≤ b then a else b

/-- Python `max` on two floats (returns the first argument when equal). -/
def pyMax (a b : ℚ) : ℚ := if a ≥ b then a else b

/-- The mutable numeric state of a `Footing` object (`source.py` lines
43-79, 565-566, 788-791).  The `name` and `log` attributes are omitted:
`name` is an opaque identifier and `log` is a write-only sink (see the
header and `wallFootingLogged`).  `width`/`length` are the plan
dimensions set by the designers (`width` also serves `WallFooting`). -/
structure Footing where
  f_c : ℚ
  w_c : ℚ
  lam : ℚ
  beta_1 : ℚ
  f_y : ℚ
  epsilon_y : ℚ
  h : ℚ
  d : ℚ
  width : ℚ
  length : ℚ
  deriving DecidableEq, Repr

/-- `Footing.set_lam` (lines 81-111): the if/elif chain binds `lam` only
for the three enumerated categories; for any other category the local
`lam` is never assigned and the following `self.log.write(f"... {lam}
...")` raises `UnboundLocalError`. -/
def set_lam (conc_type : String) : Except PyErr ℚ :=
  if conc_type = "nw" then .ok 1.0
  else if conc_type = "lw" then .ok 0.75
  else if conc_type = "s_lw" then .ok 0.85
  else .error .unboundLocalError

/-- `Footing.set_beta_1` (lines 113-134). -/
def set_beta_1 (f_c : ℚ) : ℚ :=
  if f_c > 4000 then pyMax (0.85 - 0.05 * (f_c - 4000) / 1000) 0.65 else 0.85

/-- `Footing.get_steel_props` (lines 136-163): as in `set_lam`, an
unmatched grade leaves `f_y` unbound and the log write raises
`UnboundLocalError`. -/
def get_steel_props (grade : ℤ) : Except PyErr (ℚ × ℚ) :=
  if grade = 40 then .ok (40000, 0.00138)
  else if grade = 60 then .ok (60000, 0.00207)
  else if grade = 75 then .ok (75000, 0.00259)
  else .error .unboundLocalError

/-- `Footing.set_d` (lines 165-192), with the dynamic types of its two
arguments made explicit, because one call site
(`ColumnFooting.check_one_way_shear`, line 1072) passes
`(self.h, "column")`, i.e. a float as `ftng_type` and a string as
`bar_size`.  Any `ftng_type` other than the string `"wall"` selects the
`else` (column) branch; `bar_size / 8` on a string raises `TypeError`. -/
def set_d (s : Footing) (ftng_type bar_size : PyVal) : Except PyErr Footing :=
  if ftng_type = PyVal.str "wall" then
    match pyDiv bar_size (.num 8) with
    | .error e => .error e
    | .ok bd =>
      match pyDiv bd (.num 2) with
      | .error e => .error e
      | .ok (.num q) => .ok { s with d := s.h * 12 - 3 - q }
      | .ok (.str _) => .error .typeError
  else
    match pyDiv bar_size (.num 8) with
    | .error e => .error e
    | .ok (.num q) => .ok { s with d := s.h * 12 - 3 - q }
    | .ok (.str _) => .error .typeError

/-- `Footing.net_asp` (lines 194-222). -/
def net_asp (s : Footing) (asp w_e bottom : ℚ) : ℚ :=
  (asp - w_e * (bottom - s.h) - s.w_c * s.h) / 1000

/-- `Footing.factored_soil_pressure` (lines 224-250). -/
def factored_soil_pressure (d_l l_l dimension : ℚ) : ℚ :=
  (1.2 * d_l + 1.6 * l_l) / dimension

/-- `Footing.get_k_bar` (lines 252-275). -/
def get_k_bar (s : Footing) (m_u phi b : ℚ) : ℚ :=
  m_u * 12 / (phi * b * s.d ^ 2)

/-- Model of `math.sqrt` on rationals: exact whenever numerator and
denominator are perfect squares (all square roots taken in the concrete
runs below are of this form, so the model agrees with Python there). -/
def ratSqrt (x : ℚ) : ℚ :=
  (Nat.sqrt x.num.toNat : ℚ) / (Nat.sqrt x.den : ℚ)

/-- `math.sqrt` raises `ValueError` ("math domain error") on negative
input. -/
def pySqrt (x : ℚ) : Except PyErr ℚ :=
  if x < 0 then .error .valueError else .ok (ratSqrt x)

/-- `Footing.round_up` (lines 537-554): `math.ceil(x * 10**n) / 10**n`. -/
def round_up (x : ℚ) (n : ℕ) : ℚ :=
  (⌈x * 10 ^ n⌉ : ℚ) / 10 ^ n

/-- The `while (temp2 - x) > precision: temp2 -= precision` loop of
`Footing.round_up_to_precision` (lines 531-533), indexed by fuel;
`none` models divergence. -/
def rutpGo : ℕ → ℚ → ℚ → ℚ → Option ℚ
  | 0, _, _, _ => none
  | fuel + 1, temp2, x, precision =>
    if temp2 - x > precision then rutpGo fuel (temp2 - precision) x precision
    else some temp2

/-- Fuel that suffices for `rutpGo` whenever `0 < precision` (proved in
`rutpGo_isSome_of_fuel`); the loop body strictly descends by `precision`
per pass. -/
def rutpFuel (x precision : ℚ) : ℕ :=
  if 0 < precision then (⌈((⌈x⌉ : ℚ) - x) / precision⌉).toNat + 1 else 1

/-- `Footing.round_up_to_precision` (lines 499-535): minimum of the
half-step candidate `temp1` and the `precision`-step descent `temp2`,
both starting from `math.ceil(x)`. -/
def round_up_to_precision (x precision : ℚ) : Option ℚ :=
  match rutpGo (rutpFuel x precision) ((⌈x⌉ : ℤ) : ℚ) x precision with
  | none => none
  | some temp2 =>
    some (pyMin
      (if ((⌈x⌉ : ℤ) : ℚ) - x > 0.5 then ((⌈x⌉ : ℤ) : ℚ) - 0.5 else ((⌈x⌉ : ℤ) : ℚ))
      temp2)

/-- `Footing.get_phi` (lines 318-351).  (In ℚ, division by zero yields 0;
Python would raise `ZeroDivisionError` at `rho = 0`, a case not reached
in any run considered here.) -/
def get_phi (s : Footing) (rho : ℚ) : ℚ :=
  let epsilon_t := 0.002555 * s.f_c * s.beta_1 / (rho * s.f_y) - 0.003
  if epsilon_t ≤ s.epsilon_y then 0.65
  else if epsilon_t ≥ 0.005 then 0.9
  else 0.65 + 0.25 * (epsilon_t - s.epsilon_y) / (0.005 - s.epsilon_y)

/-- `Footing.solve_for_rho` (lines 277-316).  When the computed `phi` is
below `0.9`, line 309 executes `k_bar = self.get_k_bar(m_u, phi, b)`:
`m_u` is not defined anywhere in the function (it is neither a parameter
nor a global), so Python raises `NameError` there (note also that `b` at
that point holds `self.f_y`, not a section width). -/
def solve_for_rho (s : Footing) (k_bar : ℚ) : Except PyErr ℚ :=
  let a := -0.59 * s.f_y ^ 2 / s.f_c
  let b := s.f_y
  let c := -k_bar * 1000
  pyBind (pySqrt (b ^ 2 - 4 * a * c)) fun root =>
    let rho := (-b + root) / (2 * a)
    let phi := get_phi s rho
    if phi < 0.9 then .error .nameError
    else .ok (round_up rho 4)

/-- `Footing.calc_reqd_steel` (lines 353-386). -/
def calc_reqd_steel (s : Footing) (rho b : ℚ) : ℚ := rho * b * s.d

/-- `Footing.get_min_beam` (lines 388-411). -/
def get_min_beam (s : Footing) (b : ℚ) : ℚ :=
  pyMax (3 * ratSqrt s.f_c / s.f_y * b * s.d) (200 / s.f_y * b * s.d)

/-- `Footing.get_min_slab` (lines 413-440).  In the `f_y < 60000` branch,
line 431 assigns the misspelled local `min_are_slab`; the log write on
line 437 and the `return` on line 440 both reference `min_area_slab`,
which is then undefined, so Python raises `NameError`. -/
def get_min_slab (s : Footing) (b : ℚ) : Except PyErr ℚ :=
  if s.f_y < 60000 then .error .nameError
  else .ok (pyMax ((0.0018 * 60000) / s.f_y * b * s.h * 12) (0.0014 * b * s.h * 12))

/-- `Footing.four_thirds_reqd` (lines 442-464). -/
def four_thirds_reqd (reqd_area : ℚ) : ℚ := 4 / 3 * reqd_area

/-- `Footing.get_min_reinforcing` (lines 466-497). -/
def get_min_reinforcing (s : Footing) (b reqd_area : ℚ) : Except PyErr ℚ :=
  let min_area_beam := get_min_beam s b
  pyBind (get_min_slab s b) fun min_area_slab =>
    if reqd_area ≥ min_area_beam then
      .ok (pyMax (pyMax min_area_beam min_area_slab) reqd_area)
    else
      .ok (pyMax (pyMin min_area_beam (four_thirds_reqd reqd_area)) min_area_slab)

/-- `Footing.__init__` (lines 43-79): derives the material constants and
the initial thickness/effective depth for the requested footing type.
If `ftng_type` matched neither branch, `self.h`/`self.d` would never be
assigned and any later read would raise `AttributeError`; the two
subclasses only ever pass the literals `"wall"` and `"column"`. -/
def footing_init (f_c w_c : ℚ) (conc_type : String) (grade : ℤ) (ftng_type : String) :
    Except PyErr Footing :=
  pyBind (set_lam conc_type) fun lam =>
  pyBind (get_steel_props grade) fun steel =>
    let beta_1 := set_beta_1 f_c
    if ftng_type = "wall" then
      set_d { f_c := f_c, w_c := w_c, lam := lam, beta_1 := beta_1, f_y := steel.1,
              epsilon_y := steel.2, h := 1.5, d := 0, width := 0, length := 0 }
        (.str "wall") (.num 8)
    else if ftng_type = "column" then
      set_d { f_c := f_c, w_c := w_c, lam := lam, beta_1 := beta_1, f_y := steel.1,
              epsilon_y := steel.2, h := 2, d := 0, width := 0, length := 0 }
        (.str "column") (.num 8)
    else .error .attributeError

/-- A Grade-60, `f_c = 3600` psi, normal-weight wall-footing section
right after `Footing.__init__` (`h = 1.5` ft, `d = 14.5` in). -/
def sec60 : Footing :=
  { f_c := 3600, w_c := 150, lam := 1, beta_1 := 0.85, f_y := 60000,
    epsilon_y := 0.00207, h := 1.5, d := 14.5, width := 0, length := 0 }

/-- The same section with Grade-40 steel (`f_y = 40000`). -/
def sec40 : Footing :=
  { f_c := 3600, w_c := 150, lam := 1, beta_1 := 0.85, f_y := 40000,
    epsilon_y := 0.00138, h := 1.5, d := 14.5, width := 0, length := 0 }

/-- Inner `get_v_u` of `WallFooting.check_one_way_shear` (lines 659-671). -/
def wall_get_v_u (s : Footing) (q_u req_width wall_width : ℚ) : ℚ :=
  q_u * (((req_width - wall_width / 12) / 2) - s.d / 12)

/-- Inner `get_phi_vn` of `WallFooting.check_one_way_shear`
(lines 673-682). -/
def wall_get_phi_vn (s : Footing) : ℚ :=
  0.75 * (2 * s.lam * ratSqrt s.f_c * 12 * s.d) / 1000

/-- The decrement loop of `WallFooting.check_one_way_shear`
(lines 692-699): while capacity is at least 1.5 times the requirement,
shave an inch off the thickness and recompute `d` (and with it both
shear quantities). -/
def wallShearDec : ℕ → Footing → ℚ → ℚ → ℚ → Except PyErr Footing
  | 0, _, _, _, _ => .error .nonTermination
  | fuel + 1, s, q_u, req_width, wall_width =>
    if wall_get_phi_vn s ≥ 1.5 * wall_get_v_u s q_u req_width wall_width then
      match set_d { s with h := s.h - 1/12 } (.str "wall") (.num 8) with
      | .error e => .error e
      | .ok s1 => wallShearDec fuel s1 q_u req_width wall_width
    else .ok s

/-- `WallFooting.check_one_way_shear` (lines 644-714).  In the
under-designed branch (line 702), line 704 calls
`self.round_up_to_precision(...)` with a single argument although the
method has no default for `precision` (its docstring claims 0.5 is the
default, but the signature declares none), so Python raises `TypeError`
at that call. -/
def check_one_way_shear_wall (fuel : ℕ) (s : Footing) (q_u req_width wall_width : ℚ) :
    Except PyErr Footing :=
  pyBind (wallShearDec fuel s q_u req_width wall_width) fun s1 =>
    if wall_get_phi_vn s1 < wall_get_v_u s1 q_u req_width wall_width then
      .error .typeError
    else .ok s1

/-- `WallFooting.get_req_width` (lines 606-642). -/
def get_req_width (s : Footing) (d_l l_l a_s_p w_e bottom precision : ℚ) :
    Except PyErr ℚ :=
  match round_up_to_precision ((d_l + l_l) / net_asp s a_s_p w_e bottom) precision with
  | none => .error .nonTermination
  | some used_width => .ok used_width

/-- `WallFooting.get_steel_reqd` (lines 716-754).  A wall type other
than `"masonry"`/`"concrete"` leaves the local `l` unbound, so the
moment computation raises `UnboundLocalError`. -/
def wall_get_steel_reqd (s : Footing) (q_u wall_width : ℚ) (wall_type : String) :
    Except PyErr ℚ :=
  pyBind (if wall_type = "masonry" then
            .ok ((s.width - wall_width / 12) / 2 + 0.25 * wall_width / 12)
          else if wall_type = "concrete" then
            .ok ((s.width - wall_width / 12) / 2)
          else (.error .unboundLocalError : Except PyErr ℚ)) fun l =>
    pyBind (solve_for_rho s (get_k_bar s (q_u * l ^ 2 / 2) 0.9 12)) fun rho =>
      .ok (calc_reqd_steel s rho 12)

/-- `WallFooting.design_wall_footing` (lines 571-604), returning the
final state together with the governing minimum steel area. -/
def design_wall_footing (fuel : ℕ) (s : Footing) (precision wall_width : ℚ)
    (wall_type : String) (d_l l_l a_s_p bottom w_e : ℚ) :
    Except PyErr (Footing × ℚ) :=
  pyBind (get_req_width s d_l l_l a_s_p w_e bottom precision) fun width =>
    pyBind (check_one_way_shear_wall fuel { s with width := width }
        (factored_soil_pressure d_l l_l width) width wall_width) fun s2 =>
      pyBind (wall_get_steel_reqd s2 (factored_soil_pressure d_l l_l width)
          wall_width wall_type) fun steel_reqd =>
        pyBind (get_min_reinforcing s2 12 steel_reqd) fun governing =>
          .ok (s2, governing)

/-- `WallFooting.__init__` (lines 561-569): base-class init followed by
the design procedure. -/
def wallFooting (fuel : ℕ) (precision wall_width : ℚ) (wall_type : String)
    (d_l l_l f_c : ℚ) (grade : ℤ) (a_s_p bottom : ℚ) (conc_type : String)
    (w_c w_e : ℚ) : Except PyErr (Footing × ℚ) :=
  pyBind (footing_init f_c w_c conc_type grade "wall") fun s =>
    design_wall_footing fuel s precision wall_width wall_type d_l l_l a_s_p bottom w_e

/-- `ColumnFooting.get_dimensions` (lines 856-905): with a width
restriction the long side is the required area over the restriction,
rounded up; otherwise the footing is square with side
`sqrt(required area)` rounded up. -/
def get_dimensions (s : Footing) (d_l l_l a_s_p w_e bottom : ℚ) (max_width : Option ℚ)
    (precision : ℚ) : Except PyErr (ℚ × ℚ) :=
  match max_width with
  | some mw =>
    match round_up_to_precision ((d_l + l_l) / net_asp s a_s_p w_e bottom / mw)
        precision with
    | none => .error .nonTermination
    | some long_side => .ok (long_side, mw)
  | none =>
    pyBind (pySqrt ((d_l + l_l) / net_asp s a_s_p w_e bottom)) fun root =>
      match round_up_to_precision root precision with
      | none => .error .nonTermination
      | some side => .ok (side, side)

/-- Inner `get_v_u` of `ColumnFooting.check_two_way_shear`
(lines 923-938). -/
def col2w_get_v_u (s : Footing) (width q_u area : ℚ) : ℚ :=
  q_u * (area - ((width + s.d) / 12) ^ 2)

/-- Inner `get_alpha_s` (lines 964-973): an unmatched column location
falls off the end and returns `None`. -/
def get_alpha_s (col_loc : String) : Option ℚ :=
  if col_loc = "interior" then some 40
  else if col_loc = "edge" then some 30
  else if col_loc = "corner" then some 20
  else none

/-- Inner `get_v_c` of `ColumnFooting.check_two_way_shear`
(lines 959-993): minimum of the three code capacities.  When
`get_alpha_s` returned `None`, the expression `alpha_s * self.d` raises
`TypeError`. -/
def col2w_get_v_c (s : Footing) (b_0 : ℚ) (col_loc : String) : Except PyErr ℚ :=
  match get_alpha_s col_loc with
  | none => .error .typeError
  | some alpha_s =>
    .ok (pyMin (pyMin (4 * s.lam * ratSqrt s.f_c * b_0 * s.d / 1000)
                  (6 * s.lam * ratSqrt s.f_c * b_0 * s.d / 1000))
             (((alpha_s * s.d / b_0) + 2) * s.lam * ratSqrt s.f_c * b_0 * s.d / 1000))

/-- Inner `get_phi_vn` of `ColumnFooting.check_two_way_shear`
(lines 940-957). -/
def col2w_get_phi_vn (s : Footing) (width : ℚ) (col_loc : String) : Except PyErr ℚ :=
  pyBind (col2w_get_v_c s (4 * (width + s.d)) col_loc) fun v_c => .ok (0.75 * v_c)

/-- The increment loop of `ColumnFooting.check_two_way_shear`
(lines 1003-1009): while capacity < required, add an inch of thickness.
The `set_d` call passes the misspelled literal `"colmumn"` (line 1007),
which still lands in the `else` (column) branch of `set_d`. -/
def col2wInc : ℕ → Footing → ℚ → ℚ → ℚ → String → Except PyErr Footing
  | 0, _, _, _, _, _ => .error .nonTermination
  | fuel + 1, s, q_u, area, width, col_loc =>
    pyBind (col2w_get_phi_vn s width col_loc) fun phi_vn =>
      if phi_vn < col2w_get_v_u s width q_u area then
        pyBind (set_d { s with h := s.h + 1/12 } (.str "colmumn") (.num 8)) fun s1 =>
          col2wInc fuel s1 q_u area width col_loc
      else .ok s

/-- The decrement loop of `ColumnFooting.check_two_way_shear`
(lines 1012-1018): while capacity ≥ 1.5 × required, shave an inch off.
Nothing after this loop re-checks `capacity ≥ required`: the function
ends by logging "phi_V_n > V_u (O.K.)" unconditionally (line 1021). -/
def col2wDec : ℕ → Footing → ℚ → ℚ → ℚ → String → Except PyErr Footing
  | 0, _, _, _, _, _ => .error .nonTermination
  | fuel + 1, s, q_u, area, width, col_loc =>
    pyBind (col2w_get_phi_vn s width col_loc) fun phi_vn =>
      if phi_vn ≥ 1.5 * col2w_get_v_u s width q_u area then
        pyBind (set_d { s with h := s.h - 1/12 } (.str "colmumn") (.num 8)) fun s1 =>
          col2wDec fuel s1 q_u area width col_loc
      else .ok s

/-- `ColumnFooting.check_two_way_shear` (lines 907-1021): the increment
loop followed by the decrement loop; no re-check afterwards. -/
def check_two_way_shear (fuel : ℕ) (s : Footing) (q_u area width : ℚ)
    (col_loc : String) : Except PyErr Footing :=
  pyBind (col2wInc fuel s q_u area width col_loc) fun s1 =>
    col2wDec fuel s1 q_u area width col_loc

/-- Inner `get_v_u` of `ColumnFooting.check_one_way_shear`
(lines 1036-1048). -/
def col1w_get_v_u (s : Footing) (q_u col_size : ℚ) : ℚ :=
  q_u * s.width * ((s.length - col_size / 12) / 2 - s.d / 12)

/-- Inner `get_phi_vn` of `ColumnFooting.check_one_way_shear`
(lines 1050-1059). -/
def col1w_get_phi_vn (s : Footing) : ℚ :=
  0.75 * (2 * s.lam * ratSqrt s.f_c * (s.width * 12) * s.d) / 1000

/-- The decrement loop of `ColumnFooting.check_one_way_shear`
(lines 1068-1074).  Its body calls `self.set_d(self.h, "column")`
(line 1072), binding the float `self.h` to `ftng_type` and the string
`"column"` to `bar_size`, so the first iteration raises `TypeError`
inside `set_d` (`"column" / 8`). -/
def col1wDec : ℕ → Footing → ℚ → ℚ → Except PyErr Footing
  | 0, _, _, _ => .error .nonTermination
  | fuel + 1, s, q_u, col_size =>
    if col1w_get_phi_vn s ≥ 1.5 * col1w_get_v_u s q_u col_size then
      pyBind (set_d { s with h := s.h - 1/12 } (.num (s.h - 1/12)) (.str "column"))
        fun s1 => col1wDec fuel s1 q_u col_size
    else .ok s

/-- `ColumnFooting.check_one_way_shear` (lines 1023-1087): decrement
loop, then — if under-designed — a single direct solve for `d` (here
`round_up_to_precision` is called correctly, with precision 0.5, line
1080), with the capacity recomputed once and no further check. -/
def check_one_way_shear_col (fuel : ℕ) (s : Footing) (q_u col_size : ℚ) :
    Except PyErr Footing :=
  pyBind (col1wDec fuel s q_u col_size) fun s1 =>
    if col1w_get_phi_vn s1 < col1w_get_v_u s1 q_u col_size then
      match round_up_to_precision (col1w_get_v_u s1 q_u col_size * 1000 /
          (2 * s1.lam * 0.75 * ratSqrt s1.f_c * s1.width * 12)) 0.5 with
      | none => .error .nonTermination
      | some d_new => .ok { s1 with d := d_new, h := (d_new + 3 + 8/8) / 12 }
    else .ok s1

/-- `ColumnFooting.get_steel_reqd` (lines 1089-1122). -/
def col_get_steel_reqd (s : Footing) (q_u l w : ℚ) : Except PyErr ℚ :=
  pyBind (solve_for_rho s (get_k_bar s (q_u * w * l ^ 2 / 2) 0.9 (w * 12))) fun rho =>
    .ok (calc_reqd_steel s rho (w * 12))

/-- `ColumnFooting.design_column_footing` (lines 796-854), returning the
final state with the governing steel for the length direction and the
width direction (equal for a square footing). -/
def design_column_footing (fuel : ℕ) (s : Footing)
    (precision col_width d_l l_l a_s_p bottom : ℚ) (max_width : Option ℚ)
    (col_loc : String) (w_e : ℚ) : Except PyErr (Footing × ℚ × ℚ) :=
  pyBind (get_dimensions s d_l l_l a_s_p w_e bottom max_width precision) fun lw =>
    pyBind (check_two_way_shear fuel { s with length := lw.1, width := lw.2 }
        (factored_soil_pressure d_l l_l (lw.1 * lw.2)) (lw.1 * lw.2) col_width
        col_loc) fun s1 =>
      pyBind (check_one_way_shear_col fuel s1
          (factored_soil_pressure d_l l_l (lw.1 * lw.2)) col_width) fun s2 =>
        pyBind (col_get_steel_reqd s2 (factored_soil_pressure d_l l_l (lw.1 * lw.2))
            ((s2.length - col_width / 12) / 2) s2.width) fun steel_len =>
          pyBind (get_min_reinforcing s2 (s2.width * 12) steel_len) fun msl =>
            if s2.width ≠ s2.length then
              pyBind (col_get_steel_reqd s2
                  (factored_soil_pressure d_l l_l (lw.1 * lw.2))
                  ((s2.width - col_width / 12) / 2) s2.length) fun steel_wid =>
                pyBind (get_min_reinforcing s2 (s2.length * 12) steel_wid) fun msw =>
                  .ok (s2, msl, msw)
            else .ok (s2, msl, msl)

/-- `ColumnFooting.__init__` (lines 784-794): base-class init followed
by the design procedure. -/
def columnFooting (fuel : ℕ) (precision col_width d_l l_l f_c : ℚ) (grade : ℤ)
    (a_s_p bottom : ℚ) (max_width : Option ℚ) (col_loc : String) (conc_type : String)
    (w_c w_e : ℚ) : Except PyErr (Footing × ℚ × ℚ) :=
  pyBind (footing_init f_c w_c conc_type grade "column") fun s =>
    design_column_footing fuel s precision col_width d_l l_l a_s_p bottom max_width
      col_loc w_e

/-- A Grade-60, `f_c = 3600` psi, normal-weight column-footing section
right after `Footing.__init__` (`h = 2` ft, `d = 20` in). -/
def colSec60 : Footing :=
  { f_c := 3600, w_c := 150, lam := 1, beta_1 := 0.85, f_y := 60000,
    epsilon_y := 0.00207, h := 2, d := 20, width := 0, length := 0 }

/-- States of the C7 run: length 3 ft, width 10 ft column footing,
thickness `h` ft, effective depth `d` in. -/
def c7S (h d : ℚ) : Footing :=
  { f_c := 3600, w_c := 150, lam := 1, beta_1 := 0.85, f_y := 60000,
    epsilon_y := 0.00207, h := h, d := d, width := 10, length := 3 }

/-- States of the C1 run: 2.5 ft × 2.5 ft column footing. -/
def c1S (h d : ℚ) : Footing :=
  { f_c := 3600, w_c := 150, lam := 1, beta_1 := 0.85, f_y := 60000,
    epsilon_y := 0.00207, h := h, d := d, width := 5/2, length := 5/2 }

/-- `Footing.set_lam` with its log write (line 108). -/
def set_lamL {σ : Type} (write : σ → String → σ) (conc_type : String) (g : σ) :
    Except PyErr (ℚ × σ) :=
  pyBind (set_lam conc_type) fun lam => .ok (lam, write g "--> lambda = ")

/-- `Footing.set_beta_1` with its log write (line 131). -/
def set_beta_1L {σ : Type} (write : σ → String → σ) (f_c : ℚ) (g : σ) : ℚ × σ :=
  (set_beta_1 f_c, write g "--> beta_1 = ")

/-- `Footing.get_steel_props` with its log write (line 160). -/
def get_steel_propsL {σ : Type} (write : σ → String → σ) (grade : ℤ) (g : σ) :
    Except PyErr ((ℚ × ℚ) × σ) :=
  pyBind (get_steel_props grade) fun st => .ok (st, write g "--> f_y, epsilon_y = ")

/-- `Footing.set_d` with its log write (line 191). -/
def set_dL {σ : Type} (write : σ → String → σ) (s : Footing)
    (ftng_type bar_size : PyVal) (g : σ) : Except PyErr (Footing × σ) :=
  pyBind (set_d s ftng_type bar_size) fun s1 => .ok (s1, write g "-> d = ")

/-- `Footing.net_asp` with its log writes (lines 217-220). -/
def net_aspL {σ : Type} (write : σ → String → σ) (s : Footing)
    (asp w_e bottom : ℚ) (g : σ) : ℚ × σ :=
  (net_asp s asp w_e bottom,
   write (write (write g "Calculate net allowable soil pressure...")
       "net_asp = asp - bottom x w_e - surcharge")
     "-> Net allowable soil pressure = ")

/-- `Footing.factored_soil_pressure` with its log write (line 247). -/
def factored_soil_pressureL {σ : Type} (write : σ → String → σ)
    (d_l l_l dimension : ℚ) (g : σ) : ℚ × σ :=
  (factored_soil_pressure d_l l_l dimension, write g "-> q_u = ")

/-- `Footing.get_k_bar` with its log write (line 273). -/
def get_k_barL {σ : Type} (write : σ → String → σ) (s : Footing) (m_u phi b : ℚ)
    (g : σ) : ℚ × σ :=
  (get_k_bar s m_u phi b, write g "-> k_bar = ")

/-- `Footing.get_phi` with its branch-dependent log writes
(lines 339-349). -/
def get_phiL {σ : Type} (write : σ → String → σ) (s : Footing) (rho : ℚ) (g : σ) :
    ℚ × σ :=
  let epsilon_t := 0.002555 * s.f_c * s.beta_1 / (rho * s.f_y) - 0.003
  if epsilon_t ≤ s.epsilon_y then
    (0.65, write (write g "-> Compression section -----> ") "phi = ")
  else if epsilon_t ≥ 0.005 then
    (0.9, write (write g "-> Tension section -----> ") "phi = ")
  else
    (0.65 + 0.25 * (epsilon_t - s.epsilon_y) / (0.005 - s.epsilon_y),
     write (write g "-> Transition section -----> ") "phi = ")

/-- `Footing.solve_for_rho` with its log writes (lines 303-304 and the
writes of `get_phi`); as in the pure embedding, the `phi < 0.9` branch
raises `NameError` at line 309. -/
def solve_for_rhoL {σ : Type} (write : σ → String → σ) (s : Footing) (k_bar : ℚ)
    (g : σ) : Except PyErr (ℚ × σ) :=
  let a := -0.59 * s.f_y ^ 2 / s.f_c
  let b := s.f_y
  let c := -k_bar * 1000
  pyBind (pySqrt (b ^ 2 - 4 * a * c)) fun root =>
    let rho := (-b + root) / (2 * a)
    let pg := get_phiL write s rho
      (write (write g "rho = ") "Check assumption that phi = 0.9...")
    if pg.1 < 0.9 then .error .nameError else .ok (round_up rho 4, pg.2)

/-- `Footing.calc_reqd_steel` with its log writes (lines 377-384). -/
def calc_reqd_steelL {σ : Type} (write : σ → String → σ) (s : Footing) (rho b : ℚ)
    (g : σ) : ℚ × σ :=
  (calc_reqd_steel s rho b, write g "-> A_s required = ")

/-- `Footing.get_min_beam` with its log write (line 408). -/
def get_min_beamL {σ : Type} (write : σ → String → σ) (s : Footing) (b : ℚ)
    (g : σ) : ℚ × σ :=
  (get_min_beam s b, write g "-> A_s min for beam = ")

/-- `Footing.get_min_slab` with its log write (line 437; in the Grade-40
branch the `NameError` fires at that very write). -/
def get_min_slabL {σ : Type} (write : σ → String → σ) (s : Footing) (b : ℚ)
    (g : σ) : Except PyErr (ℚ × σ) :=
  pyBind (get_min_slab s b) fun v => .ok (v, write g "-> A_s min for slab = ")

/-- `Footing.four_thirds_reqd` with its log write (line 461). -/
def four_thirds_reqdL {σ : Type} (write : σ → String → σ) (reqd_area : ℚ)
    (g : σ) : ℚ × σ :=
  (four_thirds_reqd reqd_area, write g "-> 4/3 x A_s required = ")

/-- `Footing.get_min_reinforcing` with its log writes (lines 466-497). -/
def get_min_reinforcingL {σ : Type} (write : σ → String → σ) (s : Footing)
    (b reqd_area : ℚ) (g : σ) : Except PyErr (ℚ × σ) :=
  let bg := get_min_beamL write s b g
  pyBind (get_min_slabL write s b bg.2) fun sg =>
    if reqd_area ≥ bg.1 then
      .ok (pyMax (pyMax bg.1 sg.1) reqd_area, write sg.2 "-> Use A_s = ")
    else
      let fg := four_thirds_reqdL write reqd_area sg.2
      .ok (pyMax (pyMin bg.1 fg.1) sg.1, write fg.2 "-> Use A_s = ")

/-- `Footing.__init__` with its log writes (those of the helpers it
calls). -/
def footing_initL {σ : Type} (write : σ → String → σ) (f_c w_c : ℚ)
    (conc_type : String) (grade : ℤ) (ftng_type : String) (g : σ) :
    Except PyErr (Footing × σ) :=
  pyBind (set_lamL write conc_type g) fun lg =>
  pyBind (get_steel_propsL write grade lg.2) fun sg =>
    let bg := set_beta_1L write f_c sg.2
    if ftng_type = "wall" then
      set_dL write { f_c := f_c, w_c := w_c, lam := lg.1, beta_1 := bg.1,
                     f_y := sg.1.1, epsilon_y := sg.1.2, h := 1.5, d := 0,
                     width := 0, length := 0 } (.str "wall") (.num 8) bg.2
    else if ftng_type = "column" then
      set_dL write { f_c := f_c, w_c := w_c, lam := lg.1, beta_1 := bg.1,
                     f_y := sg.1.1, epsilon_y := sg.1.2, h := 2, d := 0,
                     width := 0, length := 0 } (.str "column") (.num 8) bg.2
    else .error .attributeError

/-- Wall `get_v_u` with its log write (lines 669-670). -/
def wall_get_v_uL {σ : Type} (write : σ → String → σ) (s : Footing)
    (q_u req_width wall_width : ℚ) (g : σ) : ℚ × σ :=
  (wall_get_v_u s q_u req_width wall_width,
   write g "Calculate V_u for one-way shear...")

/-- Wall `get_phi_vn` with its log write (lines 679-681). -/
def wall_get_phi_vnL {σ : Type} (write : σ → String → σ) (s : Footing) (g : σ) :
    ℚ × σ :=
  (wall_get_phi_vn s, write g "Calculate phi_V_n for one-way shear...")

/-- The wall one-way decrement loop with its per-iteration log writes
(lines 694-699): the loop message, `set_d`, then the recomputed
`v_u`/`phi_vn` (each of which writes). -/
def wallShearDecL {σ : Type} (write : σ → String → σ) :
    ℕ → Footing → ℚ → ℚ → ℚ → σ → Except PyErr (Footing × σ)
  | 0, _, _, _, _, _ => .error .nonTermination
  | fuel + 1, s, q_u, req_width, wall_width, g =>
    if wall_get_phi_vn s ≥ 1.5 * wall_get_v_u s q_u req_width wall_width then
      pyBind (set_dL write { s with h := s.h - 1/12 } (.str "wall") (.num 8)
          (write g "-> phi_V_n >> V_u -----> try smaller footing thickness")) fun sg =>
        wallShearDecL write fuel sg.1 q_u req_width wall_width
          (wall_get_phi_vnL write sg.1
            (wall_get_v_uL write sg.1 q_u req_width wall_width sg.2).2).2
    else .ok (s, g)

/-- `WallFooting.check_one_way_shear` with its log writes (lines 684,
686-689, 708-713). -/
def check_one_way_shear_wallL {σ : Type} (write : σ → String → σ) (fuel : ℕ)
    (s : Footing) (q_u req_width wall_width : ℚ) (g : σ) :
    Except PyErr (Footing × σ) :=
  pyBind (wallShearDecL write fuel s q_u req_width wall_width
      (wall_get_phi_vnL write s
        (wall_get_v_uL write s q_u req_width wall_width
          (write g "Check one-way shear...")).2).2) fun sg =>
    if wall_get_phi_vn sg.1 < wall_get_v_u sg.1 q_u req_width wall_width then
      .error .typeError
    else .ok (sg.1, write sg.2 "-> phi_V_n > V_u (O.K.)")

/-- `WallFooting.get_req_width` with its log writes (those of `net_asp`
plus line 639). -/
def get_req_widthL {σ : Type} (write : σ → String → σ) (s : Footing)
    (d_l l_l a_s_p w_e bottom precision : ℚ) (g : σ) : Except PyErr (ℚ × σ) :=
  let ng := net_aspL write s a_s_p w_e bottom g
  pyBind (get_req_width s d_l l_l a_s_p w_e bottom precision) fun w =>
    .ok (w, write ng.2 "-> Use footing width B = ")

/-- `WallFooting.get_steel_reqd` with its log writes (lines 744 and those
of `get_k_bar`, `solve_for_rho`, `calc_reqd_steel`). -/
def wall_get_steel_reqdL {σ : Type} (write : σ → String → σ) (s : Footing)
    (q_u wall_width : ℚ) (wall_type : String) (g : σ) : Except PyErr (ℚ × σ) :=
  pyBind (if wall_type = "masonry" then
            .ok ((s.width - wall_width / 12) / 2 + 0.25 * wall_width / 12)
          else if wall_type = "concrete" then
            .ok ((s.width - wall_width / 12) / 2)
          else (.error .unboundLocalError : Except PyErr ℚ)) fun l =>
    let kg := get_k_barL write s (q_u * l ^ 2 / 2) 0.9 12 g
    pyBind (solve_for_rhoL write s kg.1 kg.2) fun rg =>
      .ok (calc_reqd_steelL write s rg.1 12 rg.2)

/-- `WallFooting.design_wall_footing` with the sink threaded through its
stages. -/
def design_wall_footingL {σ : Type} (write : σ → String → σ) (fuel : ℕ)
    (s : Footing) (precision wall_width : ℚ) (wall_type : String)
    (d_l l_l a_s_p bottom w_e : ℚ) (g : σ) : Except PyErr ((Footing × ℚ) × σ) :=
  pyBind (get_req_widthL write s d_l l_l a_s_p w_e bottom precision g) fun wg =>
    let qg := factored_soil_pressureL write d_l l_l wg.1 wg.2
    pyBind (check_one_way_shear_wallL write fuel { s with width := wg.1 } qg.1
        wg.1 wall_width qg.2) fun sg =>
      pyBind (wall_get_steel_reqdL write sg.1 qg.1 wall_width wall_type sg.2) fun ag =>
        pyBind (get_min_reinforcingL write sg.1 12 ag.1 ag.2) fun mg =>
          .ok ((sg.1, mg.1), mg.2)

/-- `WallFooting.__init__` with the sink threaded. -/
def wallFootingL {σ : Type} (write : σ → String → σ) (fuel : ℕ)
    (precision wall_width : ℚ) (wall_type : String) (d_l l_l f_c : ℚ) (grade : ℤ)
    (a_s_p bottom : ℚ) (conc_type : String) (w_c w_e : ℚ) (g : σ) :
    Except PyErr ((Footing × ℚ) × σ) :=
  pyBind (footing_initL write f_c w_c conc_type grade "wall" g) fun sg =>
    design_wall_footingL write fuel sg.1 precision wall_width wall_type d_l l_l
      a_s_p bottom w_e sg.2

/-- `ColumnFooting.get_dimensions` with its log writes (those of
`net_asp` plus lines 846-848). -/
def get_dimensionsL {σ : Type} (write : σ → String → σ) (s : Footing)
    (d_l l_l a_s_p w_e bottom : ℚ) (max_width : Option ℚ) (precision : ℚ)
    (g : σ) : Except PyErr ((ℚ × ℚ) × σ) :=
  let ng := net_aspL write s a_s_p w_e bottom g
  pyBind (get_dimensions s d_l l_l a_s_p w_e bottom max_width precision) fun lw =>
    .ok (lw, write ng.2 "-> Use footing dimensions B x L")

/-- Column two-way `get_v_u` with its log write (lines 935-937). -/
def col2w_get_v_uL {σ : Type} (write : σ → String → σ) (s : Footing)
    (width q_u area : ℚ) (g : σ) : ℚ × σ :=
  (col2w_get_v_u s width q_u area, write g "Calculate V_u for two-way shear...")

/-- Column two-way `get_phi_vn` with its log write (lines 954-956). -/
def col2w_get_phi_vnL {σ : Type} (write : σ → String → σ) (s : Footing)
    (width : ℚ) (col_loc : String) (g : σ) : Except PyErr (ℚ × σ) :=
  pyBind (col2w_get_phi_vn s width col_loc) fun v =>
    .ok (v, write g "Calculate phi_V_n for two-way shear...")

/-- The column two-way increment loop with its per-iteration log writes
(lines 1003-1009). -/
def col2wIncL {σ : Type} (write : σ → String → σ) :
    ℕ → Footing → ℚ → ℚ → ℚ → String → σ → Except PyErr (Footing × σ)
  | 0, _, _, _, _, _, _ => .error .nonTermination
  | fuel + 1, s, q_u, area, width, col_loc, g =>
    pyBind (col2w_get_phi_vnL write s width col_loc g) fun pg =>
      if pg.1 < col2w_get_v_u s width q_u area then
        pyBind (set_dL write { s with h := s.h + 1/12 } (.str "colmumn") (.num 8)
            (write pg.2 "phi_V_n < V_u ----> try larger footing thickness")) fun sg =>
          col2wIncL write fuel sg.1 q_u area width col_loc
            (col2w_get_v_uL write sg.1 width q_u area sg.2).2
      else .ok (s, pg.2)

/-- The column two-way decrement loop with its per-iteration log writes
(lines 1012-1018). -/
def col2wDecL {σ : Type} (write : σ → String → σ) :
    ℕ → Footing → ℚ → ℚ → ℚ → String → σ → Except PyErr (Footing × σ)
  | 0, _, _, _, _, _, _ => .error .nonTermination
  | fuel + 1, s, q_u, area, width, col_loc, g =>
    pyBind (col2w_get_phi_vnL write s width col_loc g) fun pg =>
      if pg.1 ≥ 1.5 * col2w_get_v_u s width q_u area then
        pyBind (set_dL write { s with h := s.h - 1/12 } (.str "colmumn") (.num 8)
            (write pg.2 "phi_V_n >> V_u ----> try smaller footing thickness")) fun sg =>
          col2wDecL write fuel sg.1 q_u area width col_loc
            (col2w_get_v_uL write sg.1 width q_u area sg.2).2
      else .ok (s, pg.2)

/-- `ColumnFooting.check_two_way_shear` with its log writes (lines 995,
997-1000, 1020-1021). -/
def check_two_way_shearL {σ : Type} (write : σ → String → σ) (fuel : ℕ)
    (s : Footing) (q_u area width : ℚ) (col_loc : String) (g : σ) :
    Except PyErr (Footing × σ) :=
  pyBind (col2wIncL write fuel s q_u area width col_loc
      (col2w_get_v_uL write s width q_u area
        (write g "Check two-way shear...")).2) fun sg =>
    pyBind (col2wDecL write fuel sg.1 q_u area width col_loc sg.2) fun tg =>
      .ok (tg.1, write tg.2 "-> phi_V_n > V_u (O.K.)")

/-- The column one-way decrement loop with its per-iteration log writes
(lines 1068-1074); as in the pure embedding, the `set_d` call carries
the swapped arguments of line 1072. -/
def col1wDecL {σ : Type} (write : σ → String → σ) :
    ℕ → Footing → ℚ → ℚ → σ → Except PyErr (Footing × σ)
  | 0, _, _, _, _ => .error .nonTermination
  | fuel + 1, s, q_u, col_size, g =>
    if col1w_get_phi_vn s ≥ 1.5 * col1w_get_v_u s q_u col_size then
      pyBind (set_dL write { s with h := s.h - 1/12 } (.num (s.h - 1/12))
          (.str "column")
          (write g "-> phi_V_n >> V_u -----> try smaller footing thickness")) fun sg =>
        col1wDecL write fuel sg.1 q_u col_size sg.2
    else .ok (s, g)

/-- `ColumnFooting.check_one_way_shear` with its log writes (lines 1062,
1078-1086). -/
def check_one_way_shear_colL {σ : Type} (write : σ → String → σ) (fuel : ℕ)
    (s : Footing) (q_u col_size : ℚ) (g : σ) : Except PyErr (Footing × σ) :=
  pyBind (col1wDecL write fuel s q_u col_size
      (write g "Check one-way shear...")) fun sg =>
    if col1w_get_phi_vn sg.1 < col1w_get_v_u sg.1 q_u col_size then
      match round_up_to_precision (col1w_get_v_u sg.1 q_u col_size * 1000 /
          (2 * sg.1.lam * 0.75 * ratSqrt sg.1.f_c * sg.1.width * 12)) 0.5 with
      | none => .error .nonTermination
      | some d_new =>
        .ok ({ sg.1 with d := d_new, h := (d_new + 3 + 8/8) / 12 },
             write sg.2 "-> phi_V_n < V_u -----> solve for d")
    else .ok (sg.1, write sg.2 "-> phi_V_n > V_u (O.K.)")

/-- `ColumnFooting.get_steel_reqd` with its log writes (lines 1118-1121
and those of its helpers). -/
def col_get_steel_reqdL {σ : Type} (write : σ → String → σ) (s : Footing)
    (q_u l w : ℚ) (g : σ) : Except PyErr (ℚ × σ) :=
  let kg := get_k_barL write s (q_u * w * l ^ 2 / 2) 0.9 (w * 12) g
  pyBind (solve_for_rhoL write s kg.1 kg.2) fun rg =>
    .ok (calc_reqd_steelL write s rg.1 (w * 12) rg.2)

/-- `ColumnFooting.design_column_footing` with the sink threaded through
its stages. -/
def design_column_footingL {σ : Type} (write : σ → String → σ) (fuel : ℕ)
    (s : Footing) (precision col_width d_l l_l a_s_p bottom : ℚ)
    (max_width : Option ℚ) (col_loc : String) (w_e : ℚ) (g : σ) :
    Except PyErr ((Footing × ℚ × ℚ) × σ) :=
  pyBind (get_dimensionsL write s d_l l_l a_s_p w_e bottom max_width precision
      g) fun lwg =>
    let qg := factored_soil_pressureL write d_l l_l (lwg.1.1 * lwg.1.2) lwg.2
    pyBind (check_two_way_shearL write fuel
        { s with length := lwg.1.1, width := lwg.1.2 } qg.1 (lwg.1.1 * lwg.1.2)
        col_width col_loc qg.2) fun sg =>
      pyBind (check_one_way_shear_colL write fuel sg.1 qg.1 col_width sg.2) fun tg =>
        pyBind (col_get_steel_reqdL write tg.1 qg.1
            ((tg.1.length - col_width / 12) / 2) tg.1.width tg.2) fun ag =>
          pyBind (get_min_reinforcingL write tg.1 (tg.1.width * 12) ag.1
              ag.2) fun mg =>
            if tg.1.width ≠ tg.1.length then
              pyBind (col_get_steel_reqdL write tg.1 qg.1
                  ((tg.1.width - col_width / 12) / 2) tg.1.length mg.2) fun ag2 =>
                pyBind (get_min_reinforcingL write tg.1 (tg.1.length * 12) ag2.1
                    ag2.2) fun mg2 =>
                  .ok ((tg.1, mg.1, mg2.1), mg2.2)
            else .ok ((tg.1, mg.1, mg.1), mg.2)

/-- `ColumnFooting.__init__` with the sink threaded. -/
def columnFootingL {σ : Type} (write : σ → String → σ) (fuel : ℕ)
    (precision col_width d_l l_l f_c : ℚ) (grade : ℤ) (a_s_p bottom : ℚ)
    (max_width : Option ℚ) (col_loc : String) (conc_type : String) (w_c w_e : ℚ)
    (g : σ) : Except PyErr ((Footing × ℚ × ℚ) × σ) :=
  pyBind (footing_initL write f_c w_c conc_type grade "column" g) fun sg =>
    design_column_footingL write fuel sg.1 precision col_width d_l l_l a_s_p
      bottom max_width col_loc w_e sg.2

@[simp] theorem pyBind_ok (a : α) (f : α → Except PyErr β) :
    pyBind (.ok a) f = f a := rfl

@[simp] theorem pyBind_error (e : PyErr) (f : α → Except PyErr β) :
    pyBind (.error e) f = .error e := rfl

theorem rutpGo_isSome_of_fuel (x p : ℚ) (hp : 0 < p) :
    ∀ (n : ℕ) (t : ℚ), t - x ≤ n * p → (rutpGo (n + 1) t x p).isSome := by
  intro n
  induction n with
  | zero =>
    intro t ht
    have hng : ¬ t - x > p := by
      simp only [Nat.cast_zero, zero_mul] at ht
      intro hgt; exact absurd (lt_of_le_of_lt ht hp) (asymm hgt)
    rw [rutpGo, if_neg hng]
    rfl
  | succ m ih =>
    intro t ht
    rw [rutpGo]
    by_cases hc : t - x > p
    · rw [if_pos hc]
      exact ih (t - p) (by push_cast at ht ⊢; linarith)
    · rw [if_neg hc]; rfl

theorem rutpGo_bounds (x p : ℚ) (hp : 0 ≤ p) :
    ∀ (n : ℕ) (t t2 : ℚ), x ≤ t → rutpGo n t x p = some t2 → x ≤ t2 ∧ t2 ≤ t := by
  intro n
  induction n with
  | zero => intro t t2 _ h; rw [rutpGo] at h; simp at h
  | succ m ih =>
    intro t t2 hxt h
    rw [rutpGo] at h
    by_cases hc : t - x > p
    · rw [if_pos hc] at h
      have := ih (t - p) t2 (by linarith) h
      exact ⟨this.1, by linarith [this.2]⟩
    · rw [if_neg hc] at h
      simp only [Option.some.injEq] at h
      exact ⟨h ▸ hxt, le_of_eq h.symm⟩

theorem rutpGo_none_of_nonpos (x p : ℚ) (hp : p ≤ 0) :
    ∀ (n : ℕ) (t : ℚ), t - x > p → rutpGo n t x p = none := by
  intro n
  induction n with
  | zero => intro t _; rw [rutpGo]
  | succ m ih =>
    intro t ht
    rw [rutpGo, if_pos ht]
    exact ih (t - p) (by linarith)

theorem round_up_to_precision_isSome (x p : ℚ) (hp : 0 < p) :
    (round_up_to_precision x p).isSome := by
  rw [round_up_to_precision]
  have hfuel : rutpFuel x p = (⌈((⌈x⌉ : ℚ) - x) / p⌉).toNat + 1 := by
    rw [rutpFuel, if_pos hp]
  have hceil : ((⌈x⌉ : ℚ) - x) ≤ ((⌈((⌈x⌉ : ℚ) - x) / p⌉).toNat : ℚ) * p := by
    have h0 : (0 : ℚ) ≤ ((⌈x⌉ : ℚ) - x) / p := by
      apply div_nonneg _ (le_of_lt hp)
      linarith [Int.le_ceil x]
    have h1 : (0 : ℤ) ≤ ⌈((⌈x⌉ : ℚ) - x) / p⌉ := Int.ceil_nonneg h0
    have h2 : ((⌈((⌈x⌉ : ℚ) - x) / p⌉).toNat : ℚ) = ((⌈((⌈x⌉ : ℚ) - x) / p⌉ : ℤ) : ℚ) := by
      exact_mod_cast congrArg (fun z : ℤ => (z : ℚ)) (Int.toNat_of_nonneg h1)
    rw [h2]
    have h3 : ((⌈x⌉ : ℚ) - x) / p ≤ ((⌈((⌈x⌉ : ℚ) - x) / p⌉ : ℤ) : ℚ) := Int.le_ceil _
    calc ((⌈x⌉ : ℚ) - x) = ((⌈x⌉ : ℚ) - x) / p * p := by field_simp
    _ ≤ ((⌈((⌈x⌉ : ℚ) - x) / p⌉ : ℤ) : ℚ) * p := by
        exact mul_le_mul_of_nonneg_right h3 (le_of_lt hp)
  have := rutpGo_isSome_of_fuel x p hp ((⌈((⌈x⌉ : ℚ) - x) / p⌉).toNat) ((⌈x⌉ : ℚ)) hceil
  rw [hfuel]
  rcases Option.isSome_iff_exists.mp this with ⟨t2, h2⟩
  rw [h2]
  rfl

theorem round_up_to_precision_bounds (x p v : ℚ) (hp : 0 ≤ p)
    (h : round_up_to_precision x p = some v) : x ≤ v ∧ v ≤ (⌈x⌉ : ℚ) := by
  rw [round_up_to_precision] at h
  have hxc : x ≤ ((⌈x⌉ : ℚ)) := Int.le_ceil x
  cases hgo : rutpGo (rutpFuel x p) ((⌈x⌉ : ℤ) : ℚ) x p with
  | none => rw [hgo] at h; simp at h
  | some t2 =>
    rw [hgo] at h
    simp only [Option.some.injEq] at h
    have ht2 := rutpGo_bounds x p hp (rutpFuel x p) ((⌈x⌉ : ℚ)) t2 hxc hgo
    have ht1 : x ≤ (if ((⌈x⌉ : ℚ)) - x > 0.5 then ((⌈x⌉ : ℚ)) - 0.5 else ((⌈x⌉ : ℚ))) ∧
        (if ((⌈x⌉ : ℚ)) - x > 0.5 then ((⌈x⌉ : ℚ)) - 0.5 else ((⌈x⌉ : ℚ))) ≤ ((⌈x⌉ : ℚ)) := by
      by_cases hcx : ((⌈x⌉ : ℚ)) - x > 0.5
      · rw [if_pos hcx]
        constructor
        · norm_num at hcx ⊢; linarith
        · norm_num
      · rw [if_neg hcx]
        exact ⟨hxc, le_refl _⟩
    rw [← h, pyMin]
    by_cases hm : (if ((⌈x⌉ : ℚ)) - x > 0.5 then ((⌈x⌉ : ℚ)) - 0.5 else ((⌈x⌉ : ℚ))) ≤ t2
    · rw [if_pos hm]
      exact ⟨ht1.1, ht1.2⟩
    · rw [if_neg hm]
      exact ⟨ht2.1, ht2.2⟩

/-- C8: for every `x` and every precision `p` with `0 < p < 1`,
`round_up_to_precision x p` returns a value `v` with `x ≤ v ≤ ⌈x⌉`:
it never under-rounds and never exceeds the ceiling of `x`, being the
minimum of the half-step candidate and the `p`-step descent from
`⌈x⌉`. -/
theorem round_up_to_precision_in_range (x p : ℚ) (hp0 : 0 < p) (hp1 : p < 1) :
    ∃ v, round_up_to_precision x p = some v ∧ x ≤ v ∧ v ≤ (⌈x⌉ : ℚ) := by
  have hs := round_up_to_precision_isSome x p hp0
  rcases Option.isSome_iff_exists.mp hs with ⟨v, hv⟩
  exact ⟨v, hv, round_up_to_precision_bounds x p v (le_of_lt hp0) hv⟩

theorem round_up_to_precision_in_range_witness :
    (0 : ℚ) < 1/3 ∧ (1/3 : ℚ) < 1 ∧
      ∃ v, round_up_to_precision (67/6) (1/3) = some v ∧
        (67/6 : ℚ) ≤ v ∧ v ≤ (⌈(67/6 : ℚ)⌉ : ℚ) :=
  ⟨by norm_num, by norm_num,
    round_up_to_precision_in_range (67/6) (1/3) (by norm_num) (by norm_num)⟩

/-- C10: the descending loop of `round_up_to_precision` terminates for
every `x` whenever `precision > 0` (the model returns `some`), and for
`precision ≤ 0` it diverges whenever `⌈x⌉ ≠ x` (no amount of fuel makes
`rutpGo` return), so `precision > 0` is a necessary precondition. -/
theorem round_up_to_precision_terminates :
    (∀ x p : ℚ, 0 < p → (round_up_to_precision x p).isSome) ∧
    (∀ x p : ℚ, p ≤ 0 → ((⌈x⌉ : ℚ) ≠ x) →
      ∀ fuel, rutpGo fuel ((⌈x⌉ : ℚ)) x p = none) := by
  constructor
  · exact fun x p hp => round_up_to_precision_isSome x p hp
  · intro x p hp hne fuel
    apply rutpGo_none_of_nonpos x p hp
    have : x ≤ ((⌈x⌉ : ℚ)) := Int.le_ceil x
    have : x < ((⌈x⌉ : ℚ)) := lt_of_le_of_ne this (fun h => hne h.symm)
    linarith

theorem round_up_to_precision_terminates_witness :
    (round_up_to_precision (67/6) (1/3)).isSome ∧
      rutpGo 7 ((⌈(1/2 : ℚ)⌉ : ℚ)) (1/2) 0 = none :=
  ⟨round_up_to_precision_terminates.1 (67/6) (1/3) (by norm_num),
    round_up_to_precision_terminates.2 (1/2) 0 (by norm_num)
      (by rw [show ⌈(1/2 : ℚ)⌉ = 1 by norm_num [Int.ceil_eq_iff]]; norm_num) 7⟩

theorem ratSqrt_3600 : ratSqrt 3600 = 60 := by
  rw [ratSqrt]
  norm_num
  rw [show Int.toNat 3600 = 3600 from rfl,
    show (3600 : ℕ) = 60 * 60 by norm_num, Nat.sqrt_eq]
  norm_num

theorem ratSqrt_1600000000 : ratSqrt 1600000000 = 40000 := by
  rw [ratSqrt]
  norm_num
  rw [show Int.toNat 1600000000 = 1600000000 from rfl,
    show (1600000000 : ℕ) = 40000 * 40000 by norm_num, Nat.sqrt_eq]
  norm_num

theorem ratSqrt_1521000000 : ratSqrt 1521000000 = 39000 := by
  rw [ratSqrt]
  norm_num
  rw [show Int.toNat 1521000000 = 1521000000 from rfl,
    show (1521000000 : ℕ) = 39000 * 39000 by norm_num, Nat.sqrt_eq]
  norm_num

theorem ratSqrt_2500000000 : ratSqrt 2500000000 = 50000 := by
  rw [ratSqrt]
  norm_num
  rw [show Int.toNat 2500000000 = 2500000000 from rfl,
    show (2500000000 : ℕ) = 50000 * 50000 by norm_num, Nat.sqrt_eq]
  norm_num

/-- C4 (counterexample): on an unmatched concrete-type category the
constructor fails, but with `UnboundLocalError` (the local `lam` is read
by the log write before ever being assigned), not with the
`InvalidCategory` error the claim names. -/
theorem set_lam_error_is_not_invalidCategory :
    set_lam "foo" = .error .unboundLocalError ∧
      (Except.error PyErr.unboundLocalError : Except PyErr ℚ) ≠
        .error .invalidCategory := by
  constructor
  · rw [set_lam, if_neg (by decide), if_neg (by decide), if_neg (by decide)]
  · intro h
    simp only [Except.error.injEq] at h
    cases h

/-- C4 (amended): every category outside the enumerated sets makes the
material-model construction fail with `UnboundLocalError` (not
`InvalidCategory`), and each enumerated category yields exactly the
documented constants. -/
theorem material_model_categories :
    (∀ ct : String, ct ≠ "nw" → ct ≠ "lw" → ct ≠ "s_lw" →
        set_lam ct = .error .unboundLocalError) ∧
    (∀ g : ℤ, g ≠ 40 → g ≠ 60 → g ≠ 75 →
        get_steel_props g = .error .unboundLocalError) ∧
    set_lam "nw" = .ok 1 ∧ set_lam "lw" = .ok 0.75 ∧ set_lam "s_lw" = .ok 0.85 ∧
    get_steel_props 40 = .ok (40000, 0.00138) ∧
    get_steel_props 60 = .ok (60000, 0.00207) ∧
    get_steel_props 75 = .ok (75000, 0.00259) := by
  refine ⟨?_, ?_, ?_, ?_, ?_, ?_, ?_, ?_⟩
  · intro ct h1 h2 h3
    rw [set_lam, if_neg h1, if_neg h2, if_neg h3]
  · intro g h1 h2 h3
    rw [get_steel_props, if_neg h1, if_neg h2, if_neg h3]
  · rw [set_lam, if_pos rfl]; norm_num
  · rw [set_lam, if_neg (by decide), if_pos rfl]
  · rw [set_lam, if_neg (by decide), if_neg (by decide), if_pos rfl]
  · rw [get_steel_props, if_pos rfl]
  · rw [get_steel_props, if_neg (by norm_num), if_pos rfl]
  · rw [get_steel_props, if_neg (by norm_num), if_neg (by norm_num), if_pos rfl]

theorem material_model_categories_witness :
    set_lam "foo" = .error .unboundLocalError ∧
      get_steel_props 50 = .error .unboundLocalError :=
  ⟨material_model_categories.1 "foo" (by decide) (by decide) (by decide),
    material_model_categories.2.1 50 (by norm_num) (by norm_num) (by norm_num)⟩

/-- C6: `get_min_slab` does not return `0.0020*b*h*12` for Grade-40
steel — the misspelled assignment `min_are_slab` on line 431 makes the
`f_y < 60000` branch raise `NameError` instead; the `f_y ≥ 60000`
branch works and returns the documented maximum (here
`max(0.3888, 0.3024) = 0.3888` sq in for `b = 12`, `h = 1.5`). -/
theorem get_min_slab_grade40_crashes :
    get_min_slab sec40 12 = .error .nameError ∧
      get_min_slab sec60 12 = .ok (243/625) := by
  constructor
  · rw [get_min_slab, if_pos (by norm_num [sec40])]
  · rw [get_min_slab, if_neg (by norm_num [sec60])]
    norm_num [sec60, pyMax]

/-- C2: when the first `rho` gives `phi < 0.9` the claimed one-shot
recomputation never happens: line 309 references the undefined `m_u`
and `solve_for_rho` raises `NameError`.  At `k_bar = 50/59` (Grade 60,
`f_c = 3600`) the quadratic gives `rho = 1/59`, whose `phi ≈ 0.8734`
is below `0.9`, and the call crashes instead of returning a corrected
`rho`. -/
theorem solve_for_rho_phi_below_09_crashes :
    get_phi sec60 (1/59) < 0.9 ∧
      solve_for_rho sec60 (50/59) = .error .nameError := by
  constructor
  · norm_num [get_phi, sec60]
  · norm_num [solve_for_rho, sec60, pySqrt, get_phi, ratSqrt_1600000000]

/-- C5: `solve_for_rho` does fail with `ValueError` (the math-domain
error the specification calls `NonPhysicalSection`) exactly when the
discriminant is negative, but the claim that a non-negative discriminant
yields a normal return is false: at `k_bar = 2079/2360` the discriminant
is `1521000000 ≥ 0`, yet the function raises `NameError` (undefined
`m_u` on the `phi < 0.9` path). -/
theorem solve_for_rho_nonneg_disc_still_raises :
    (0 : ℚ) ≤ (60000 : ℚ) ^ 2 -
        4 * (-0.59 * (60000 : ℚ) ^ 2 / 3600) * (-(2079/2360) * 1000) ∧
      solve_for_rho sec60 (2079/2360) = .error .nameError ∧
      (60000 : ℚ) ^ 2 - 4 * (-0.59 * (60000 : ℚ) ^ 2 / 3600) * (-2 * 1000) < 0 ∧
      solve_for_rho sec60 2 = .error .valueError := by
  refine ⟨by norm_num, ?_, by norm_num, ?_⟩
  · norm_num [solve_for_rho, sec60, pySqrt, get_phi, ratSqrt_1521000000]
  · norm_num [solve_for_rho, sec60, pySqrt]

theorem rutp_100_7 : round_up_to_precision (100/7) (1/2) = some (29/2) := by
  have hc : ⌈(100/7 : ℚ)⌉ = 15 := by norm_num [Int.ceil_eq_iff]
  have hf : ⌈(((15 : ℤ) : ℚ) - 100/7) / (1/2)⌉ = 2 := by norm_num [Int.ceil_eq_iff]
  rw [round_up_to_precision, rutpFuel, if_pos (by norm_num : (0:ℚ) < 1/2), hc, hf]
  rw [show Int.toNat 2 = 2 from rfl]
  rw [rutpGo]
  norm_num [pyMin]
  rw [rutpGo]
  norm_num

theorem footing_init_wall_3600_60 :
    footing_init 3600 150 "nw" 60 "wall" = .ok sec60 := by
  norm_num [footing_init, set_lam, get_steel_props, set_beta_1, set_d, pyDiv, sec60]

/-- C3: the claimed direct solve for `d` in the under-designed branch of
the wall one-way-shear check never happens: the call to
`round_up_to_precision` on line 704 is missing its required `precision`
argument (the method declares no default, although its docstring claims
0.5 is the default), so the design request dies with `TypeError`.
Concrete run: wall footing, `d_l = 40`, `l_l = 10` kip/ft, `f_c = 3600`
psi, Grade 60, ASP 3975 psf, 12-inch concrete wall, precision 1/2 — the
initial thickness is already under-designed (capacity 15.66 < required
≈ 24.46 kip/ft), the decrement loop is skipped, and the under-designed
branch raises instead of completing the check. -/
theorem wall_direct_solve_raises_typeError :
    wallFooting 30 (1/2) 12 "concrete" 40 10 3600 60 3975 4 "nw" 150 100 =
      .error .typeError := by
  have h2 : get_req_width sec60 40 10 3975 100 4 (1/2) = .ok (29/2) := by
    norm_num [get_req_width, net_asp, sec60, rutp_100_7]
  have h3 : wallShearDec 30 { sec60 with width := 29/2 }
      (factored_soil_pressure 40 10 (29/2)) (29/2) 12 =
      .ok { sec60 with width := 29/2 } := by
    norm_num [wallShearDec, wall_get_phi_vn, wall_get_v_u, sec60, ratSqrt_3600,
      factored_soil_pressure]
  have hlt : wall_get_phi_vn { sec60 with width := 29/2 } <
      wall_get_v_u { sec60 with width := 29/2 }
        (factored_soil_pressure 40 10 (29/2)) (29/2) 12 := by
    norm_num [wall_get_phi_vn, wall_get_v_u, sec60, ratSqrt_3600,
      factored_soil_pressure]
  have h4 : check_one_way_shear_wall 30 { sec60 with width := 29/2 }
      (factored_soil_pressure 40 10 (29/2)) (29/2) 12 = .error .typeError := by
    conv_lhs => rw [check_one_way_shear_wall, h3]
    conv_lhs => rw [pyBind_ok]
    rw [if_pos hlt]
  conv_lhs => rw [wallFooting, footing_init_wall_3600_60]
  conv_lhs => rw [pyBind_ok]
  conv_lhs => rw [design_wall_footing, h2]
  conv_lhs => rw [pyBind_ok]
  conv_lhs => rw [h4]
  rw [pyBind_error]

theorem pyval_colmumn_ne_wall : (PyVal.str "colmumn" = PyVal.str "wall") = False :=
  eq_false (by decide)

theorem pyval_column_ne_wall : (PyVal.str "column" = PyVal.str "wall") = False :=
  eq_false (by decide)

theorem pyval_num_ne_str (q : ℚ) (t : String) : (PyVal.num q = PyVal.str t) = False :=
  eq_false (fun h => PyVal.noConfusion h)

theorem str_column_ne_wall : ("column" = "wall") = False := eq_false (by decide)

theorem str_colmumn_ne_wall : ("colmumn" = "wall") = False := eq_false (by decide)

theorem set_d_wall_eval (s : Footing) :
    set_d s (.str "wall") (.num 8) = .ok { s with d := s.h * 12 - 3 - 8 / 8 / 2 } := by
  rw [set_d, if_pos rfl]
  norm_num [pyDiv]

theorem set_d_colmumn_eval (s : Footing) :
    set_d s (.str "colmumn") (.num 8) = .ok { s with d := s.h * 12 - 3 - 8 / 8 } := by
  rw [set_d]
  norm_num [str_colmumn_ne_wall, pyDiv]

theorem set_d_column_eval (s : Footing) :
    set_d s (.str "column") (.num 8) = .ok { s with d := s.h * 12 - 3 - 8 / 8 } := by
  rw [set_d]
  norm_num [str_column_ne_wall, pyDiv]

theorem set_d_num_str_eval (s : Footing) (q : ℚ) (t : String) :
    set_d s (.num q) (.str t) = .error .typeError := by
  rw [set_d]
  norm_num [pyval_num_ne_str, pyDiv]

theorem get_alpha_s_interior : get_alpha_s "interior" = some 40 := by
  rw [get_alpha_s, if_pos rfl]

theorem col2w_get_v_c_interior (s : Footing) (b_0 : ℚ) :
    col2w_get_v_c s b_0 "interior" =
      .ok (pyMin (pyMin (4 * s.lam * ratSqrt s.f_c * b_0 * s.d / 1000)
                    (6 * s.lam * ratSqrt s.f_c * b_0 * s.d / 1000))
               (((40 * s.d / b_0) + 2) * s.lam * ratSqrt s.f_c * b_0 * s.d / 1000)) := by
  rw [col2w_get_v_c, get_alpha_s_interior]

theorem footing_init_col_3600_60 :
    footing_init 3600 150 "nw" 60 "column" = .ok colSec60 := by
  norm_num [footing_init, set_lam, get_steel_props, set_beta_1, set_d_column_eval,
    colSec60, str_column_ne_wall]

theorem rutp_45_16 : round_up_to_precision (45/16) (1/2) = some 3 := by
  have hc : ⌈(45/16 : ℚ)⌉ = 3 := by norm_num [Int.ceil_eq_iff]
  have hf : ⌈(((3 : ℤ) : ℚ) - 45/16) / (1/2)⌉ = 1 := by norm_num [Int.ceil_eq_iff]
  rw [round_up_to_precision, rutpFuel, if_pos (by norm_num : (0:ℚ) < 1/2), hc, hf]
  rw [show Int.toNat 1 = 1 from rfl]
  rw [rutpGo]
  norm_num [pyMin]

theorem colSec60_with_c7 :
    { colSec60 with length := (3 : ℚ), width := (10 : ℚ) } = c7S 2 20 := rfl

theorem colSec60_with_c1 :
    { colSec60 with length := (5/2 : ℚ), width := (5/2 : ℚ) } = c1S 2 20 := rfl

theorem c7_dims :
    get_dimensions colSec60 150 75 8500 100 4 (some 10) (1/2) = .ok (3, 10) := by
  norm_num [get_dimensions, net_asp, colSec60, rutp_45_16]

theorem c7_hq : factored_soil_pressure 150 75 30 = 10 := by
  norm_num [factored_soil_pressure]

theorem c7_inc : col2wInc 30 (c7S 2 20) (factored_soil_pressure 150 75 30) 30 12
    "interior" = .ok (c7S 2 20) := by
  conv_lhs => rw [c7_hq]
  conv_lhs => rw [col2wInc,
    show col2w_get_phi_vn (c7S 2 20) 12 "interior" = .ok (2304/5) from by
      norm_num [col2w_get_phi_vn, col2w_get_v_c_interior, c7S, ratSqrt_3600, pyMin],
    pyBind_ok]
  conv_lhs => rw [if_neg (show ¬ ((2304/5 : ℚ) < col2w_get_v_u (c7S 2 20) 12 10 30)
    from by norm_num [col2w_get_v_u, c7S])]

theorem c7_dec : col2wDec 30 (c7S 2 20) (factored_soil_pressure 150 75 30) 30 12
    "interior" = .ok (c7S (7/4) 17) := by
  conv_lhs => rw [c7_hq]
  calc col2wDec 30 (c7S 2 20) 10 30 12 "interior"
    _ = col2wDec 29 (c7S (23/12) 19) 10 30 12 "interior" := by
        conv_lhs => rw [col2wDec,
          show col2w_get_phi_vn (c7S 2 20) 12 "interior" = .ok (2304/5) from by
            norm_num [col2w_get_phi_vn, col2w_get_v_c_interior, c7S, ratSqrt_3600, pyMin],
          pyBind_ok]
        conv_lhs => rw [if_pos (show (2304/5 : ℚ) ≥
            1.5 * col2w_get_v_u (c7S 2 20) 12 10 30 from by
          norm_num [col2w_get_v_u, c7S])]
        conv_lhs => rw [set_d_colmumn_eval, pyBind_ok]
        norm_num [c7S]
    _ = col2wDec 28 (c7S (11/6) 18) 10 30 12 "interior" := by
        conv_lhs => rw [col2wDec,
          show col2w_get_phi_vn (c7S (23/12) 19) 12 "interior" = .ok (10602/25) from by
            norm_num [col2w_get_phi_vn, col2w_get_v_c_interior, c7S, ratSqrt_3600, pyMin],
          pyBind_ok]
        conv_lhs => rw [if_pos (show (10602/25 : ℚ) ≥
            1.5 * col2w_get_v_u (c7S (23/12) 19) 12 10 30 from by
          norm_num [col2w_get_v_u, c7S])]
        conv_lhs => rw [set_d_colmumn_eval, pyBind_ok]
        norm_num [c7S]
    _ = col2wDec 27 (c7S (7/4) 17) 10 30 12 "interior" := by
        conv_lhs => rw [col2wDec,
          show col2w_get_phi_vn (c7S (11/6) 18) 12 "interior" = .ok (1944/5) from by
            norm_num [col2w_get_phi_vn, col2w_get_v_c_interior, c7S, ratSqrt_3600, pyMin],
          pyBind_ok]
        conv_lhs => rw [if_pos (show (1944/5 : ℚ) ≥
            1.5 * col2w_get_v_u (c7S (11/6) 18) 12 10 30 from by
          norm_num [col2w_get_v_u, c7S])]
        conv_lhs => rw [set_d_colmumn_eval, pyBind_ok]
        norm_num [c7S]
    _ = .ok (c7S (7/4) 17) := by
        conv_lhs => rw [col2wDec,
          show col2w_get_phi_vn (c7S (7/4) 17) 12 "interior" = .ok (8874/25) from by
            norm_num [col2w_get_phi_vn, col2w_get_v_c_interior, c7S, ratSqrt_3600, pyMin],
          pyBind_ok]
        conv_lhs => rw [if_neg (show ¬ ((8874/25 : ℚ) ≥
            1.5 * col2w_get_v_u (c7S (7/4) 17) 12 10 30) from by
          norm_num [col2w_get_v_u, c7S])]

theorem c7_2w : check_two_way_shear 30 (c7S 2 20) (factored_soil_pressure 150 75 30)
    30 12 "interior" = .ok (c7S (7/4) 17) := by
  conv_lhs => rw [check_two_way_shear, c7_inc, pyBind_ok, c7_dec]

theorem c7_1w : col1wDec 30 (c7S (7/4) 17) (factored_soil_pressure 150 75 30) 12 =
    .error .typeError := by
  conv_lhs => rw [c7_hq]
  conv_lhs => rw [col1wDec]
  conv_lhs => rw [if_pos (show col1w_get_phi_vn (c7S (7/4) 17) ≥
      1.5 * col1w_get_v_u (c7S (7/4) 17) 10 12 from by
    norm_num [col1w_get_phi_vn, col1w_get_v_u, c7S, ratSqrt_3600])]
  conv_lhs => rw [set_d_num_str_eval, pyBind_error]

theorem c7_check1w : check_one_way_shear_col 30 (c7S (7/4) 17)
    (factored_soil_pressure 150 75 30) 12 = .error .typeError := by
  conv_lhs => rw [check_one_way_shear_col, c7_1w]
  rw [pyBind_error]

/-- C7: the claimed "d is recomputed after every mutation of h" fails in
the column footing's one-way-shear decrement loop: its body calls
`self.set_d(self.h, "column")` (line 1072), passing the thickness as
`ftng_type` and the string `"column"` as `bar_size`, so instead of
restoring the `d`/`h` invariant the first iteration raises `TypeError`
(`"column" / 8`).  Concrete run: column footing, `d_l = 150`,
`l_l = 75` kip, ASP 8500 psf, max width 10 ft, 12-inch interior column,
`f_c = 3600` psi, Grade 60: the two-way check ends at `d = 17` in, the
one-way check is over-designed (capacity 183.6 ≥ 1.5 × required), its
decrement loop fires, and the whole request dies with `TypeError`. -/
theorem col_one_way_decrement_crashes_typeError :
    columnFooting 30 (1/2) 12 150 75 3600 60 8500 4 (some 10) "interior" "nw"
      150 100 = .error .typeError := by
  conv_lhs => rw [columnFooting, footing_init_col_3600_60, pyBind_ok]
  conv_lhs => rw [design_column_footing, c7_dims, pyBind_ok]
  norm_num []
  conv_lhs => rw [colSec60_with_c7]
  conv_lhs => rw [c7_2w, pyBind_ok]
  conv_lhs => rw [c7_check1w]
  rw [pyBind_error]

theorem rutp_1500_649 : round_up_to_precision (1500/649) (1/2) = some (5/2) := by
  have hc : ⌈(1500/649 : ℚ)⌉ = 3 := by norm_num [Int.ceil_eq_iff]
  have hf : ⌈(((3 : ℤ) : ℚ) - 1500/649) / (1/2)⌉ = 2 := by norm_num [Int.ceil_eq_iff]
  rw [round_up_to_precision, rutpFuel, if_pos (by norm_num : (0:ℚ) < 1/2), hc, hf]
  rw [show Int.toNat 2 = 2 from rfl]
  rw [rutpGo]
  norm_num [pyMin]
  rw [rutpGo]
  norm_num

theorem c1_dims :
    get_dimensions colSec60 (3375/649) 0 1400 100 4 (some (5/2)) (1/2) =
      .ok (5/2, 5/2) := by
  norm_num [get_dimensions, net_asp, colSec60, rutp_1500_649]

theorem c1_hq : factored_soil_pressure (3375/649) 0 (25/4) = 648/649 := by
  norm_num [factored_soil_pressure]

theorem c1_inc : col2wInc 30 (c1S 2 20) (factored_soil_pressure (3375/649) 0 (25/4))
    (25/4) 8 "interior" = .ok (c1S 2 20) := by
  conv_lhs => rw [c1_hq]
  conv_lhs => rw [col2wInc,
    show col2w_get_phi_vn (c1S 2 20) 8 "interior" = .ok (2016/5) from by
      norm_num [col2w_get_phi_vn, col2w_get_v_c_interior, c1S, ratSqrt_3600, pyMin],
    pyBind_ok]
  conv_lhs => rw [if_neg (show ¬ ((2016/5 : ℚ) <
      col2w_get_v_u (c1S 2 20) 8 (648/649) (25/4)) from by
    norm_num [col2w_get_v_u, c1S])]

theorem c1_dec : col2wDec 30 (c1S 2 20) (factored_soil_pressure (3375/649) 0 (25/4))
    (25/4) 8 "interior" = .ok (c1S (5/12) 1) := by
  conv_lhs => rw [c1_hq]
  calc col2wDec 30 (c1S 2 20) (648/649) (25/4) 8 "interior"
    _ = col2wDec 29 (c1S (23/12) 19) (648/649) (25/4) 8 "interior" := by
        conv_lhs => rw [col2wDec,
          show col2w_get_phi_vn (c1S 2 20) 8 "interior" = .ok (2016/5) from by
            norm_num [col2w_get_phi_vn, col2w_get_v_c_interior, c1S, ratSqrt_3600, pyMin],
          pyBind_ok]
        conv_lhs => rw [if_pos (show (2016/5 : ℚ) ≥
            1.5 * col2w_get_v_u (c1S 2 20) 8 (648/649) (25/4) from by
          norm_num [col2w_get_v_u, c1S])]
        conv_lhs => rw [set_d_colmumn_eval, pyBind_ok]
        norm_num [c1S]
    _ = col2wDec 28 (c1S (11/6) 18) (648/649) (25/4) 8 "interior" := by
        conv_lhs => rw [col2wDec,
          show col2w_get_phi_vn (c1S (23/12) 19) 8 "interior" = .ok (9234/25) from by
            norm_num [col2w_get_phi_vn, col2w_get_v_c_interior, c1S, ratSqrt_3600, pyMin],
          pyBind_ok]
        conv_lhs => rw [if_pos (show (9234/25 : ℚ) ≥
            1.5 * col2w_get_v_u (c1S (23/12) 19) 8 (648/649) (25/4) from by
          norm_num [col2w_get_v_u, c1S])]
        conv_lhs => rw [set_d_colmumn_eval, pyBind_ok]
        norm_num [c1S]
    _ = col2wDec 27 (c1S (7/4) 17) (648/649) (25/4) 8 "interior" := by
        conv_lhs => rw [col2wDec,
          show col2w_get_phi_vn (c1S (11/6) 18) 8 "interior" = .ok (8424/25) from by
            norm_num [col2w_get_phi_vn, col2w_get_v_c_interior, c1S, ratSqrt_3600, pyMin],
          pyBind_ok]
        conv_lhs => rw [if_pos (show (8424/25 : ℚ) ≥
            1.5 * col2w_get_v_u (c1S (11/6) 18) 8 (648/649) (25/4) from by
          norm_num [col2w_get_v_u, c1S])]
        conv_lhs => rw [set_d_colmumn_eval, pyBind_ok]
        norm_num [c1S]
    _ = col2wDec 26 (c1S (5/3) 16) (648/649) (25/4) 8 "interior" := by
        conv_lhs => rw [col2wDec,
          show col2w_get_phi_vn (c1S (7/4) 17) 8 "interior" = .ok (306) from by
            norm_num [col2w_get_phi_vn, col2w_get_v_c_interior, c1S, ratSqrt_3600, pyMin],
          pyBind_ok]
        conv_lhs => rw [if_pos (show (306 : ℚ) ≥
            1.5 * col2w_get_v_u (c1S (7/4) 17) 8 (648/649) (25/4) from by
          norm_num [col2w_get_v_u, c1S])]
        conv_lhs => rw [set_d_colmumn_eval, pyBind_ok]
        norm_num [c1S]
    _ = col2wDec 25 (c1S (19/12) 15) (648/649) (25/4) 8 "interior" := by
        conv_lhs => rw [col2wDec,
          show col2w_get_phi_vn (c1S (5/3) 16) 8 "interior" = .ok (6912/25) from by
            norm_num [col2w_get_phi_vn, col2w_get_v_c_interior, c1S, ratSqrt_3600, pyMin],
          pyBind_ok]
        conv_lhs => rw [if_pos (show (6912/25 : ℚ) ≥
            1.5 * col2w_get_v_u (c1S (5/3) 16) 8 (648/649) (25/4) from by
          norm_num [col2w_get_v_u, c1S])]
        conv_lhs => rw [set_d_colmumn_eval, pyBind_ok]
        norm_num [c1S]
    _ = col2wDec 24 (c1S (3/2) 14) (648/649) (25/4) 8 "interior" := by
        conv_lhs => rw [col2wDec,
          show col2w_get_phi_vn (c1S (19/12) 15) 8 "interior" = .ok (1242/5) from by
            norm_num [col2w_get_phi_vn, col2w_get_v_c_interior, c1S, ratSqrt_3600, pyMin],
          pyBind_ok]
        conv_lhs => rw [if_pos (show (1242/5 : ℚ) ≥
            1.5 * col2w_get_v_u (c1S (19/12) 15) 8 (648/649) (25/4) from by
          norm_num [col2w_get_v_u, c1S])]
        conv_lhs => rw [set_d_colmumn_eval, pyBind_ok]
        norm_num [c1S]
    _ = col2wDec 23 (c1S (17/12) 13) (648/649) (25/4) 8 "interior" := by
        conv_lhs => rw [col2wDec,
          show col2w_get_phi_vn (c1S (3/2) 14) 8 "interior" = .ok (5544/25) from by
            norm_num [col2w_get_phi_vn, col2w_get_v_c_interior, c1S, ratSqrt_3600, pyMin],
          pyBind_ok]
        conv_lhs => rw [if_pos (show (5544/25 : ℚ) ≥
            1.5 * col2w_get_v_u (c1S (3/2) 14) 8 (648/649) (25/4) from by
          norm_num [col2w_get_v_u, c1S])]
        conv_lhs => rw [set_d_colmumn_eval, pyBind_ok]
        norm_num [c1S]
    _ = col2wDec 22 (c1S (4/3) 12) (648/649) (25/4) 8 "interior" := by
        conv_lhs => rw [col2wDec,
          show col2w_get_phi_vn (c1S (17/12) 13) 8 "interior" = .ok (4914/25) from by
            norm_num [col2w_get_phi_vn, col2w_get_v_c_interior, c1S, ratSqrt_3600, pyMin],
          pyBind_ok]
        conv_lhs => rw [if_pos (show (4914/25 : ℚ) ≥
            1.5 * col2w_get_v_u (c1S (17/12) 13) 8 (648/649) (25/4) from by
          norm_num [col2w_get_v_u, c1S])]
        conv_lhs => rw [set_d_colmumn_eval, pyBind_ok]
        norm_num [c1S]
    _ = col2wDec 21 (c1S (5/4) 11) (648/649) (25/4) 8 "interior" := by
        conv_lhs => rw [col2wDec,
          show col2w_get_phi_vn (c1S (4/3) 12) 8 "interior" = .ok (864/5) from by
            norm_num [col2w_get_phi_vn, col2w_get_v_c_interior, c1S, ratSqrt_3600, pyMin],
          pyBind_ok]
        conv_lhs => rw [if_pos (show (864/5 : ℚ) ≥
            1.5 * col2w_get_v_u (c1S (4/3) 12) 8 (648/649) (25/4) from by
          norm_num [col2w_get_v_u, c1S])]
        conv_lhs => rw [set_d_colmumn_eval, pyBind_ok]
        norm_num [c1S]
    _ = col2wDec 20 (c1S (7/6) 10) (648/649) (25/4) 8 "interior" := by
        conv_lhs => rw [col2wDec,
          show col2w_get_phi_vn (c1S (5/4) 11) 8 "interior" = .ok (3762/25) from by
            norm_num [col2w_get_phi_vn, col2w_get_v_c_interior, c1S, ratSqrt_3600, pyMin],
          pyBind_ok]
        conv_lhs => rw [if_pos (show (3762/25 : ℚ) ≥
            1.5 * col2w_get_v_u (c1S (5/4) 11) 8 (648/649) (25/4) from by
          norm_num [col2w_get_v_u, c1S])]
        conv_lhs => rw [set_d_colmumn_eval, pyBind_ok]
        norm_num [c1S]
    _ = col2wDec 19 (c1S (13/12) 9) (648/649) (25/4) 8 "interior" := by
        conv_lhs => rw [col2wDec,
          show col2w_get_phi_vn (c1S (7/6) 10) 8 "interior" = .ok (648/5) from by
            norm_num [col2w_get_phi_vn, col2w_get_v_c_interior, c1S, ratSqrt_3600, pyMin],
          pyBind_ok]
        conv_lhs => rw [if_pos (show (648/5 : ℚ) ≥
            1.5 * col2w_get_v_u (c1S (7/6) 10) 8 (648/649) (25/4) from by
          norm_num [col2w_get_v_u, c1S])]
        conv_lhs => rw [set_d_colmumn_eval, pyBind_ok]
        norm_num [c1S]
    _ = col2wDec 18 (c1S 1 8) (648/649) (25/4) 8 "interior" := by
        conv_lhs => rw [col2wDec,
          show col2w_get_phi_vn (c1S (13/12) 9) 8 "interior" = .ok (2754/25) from by
            norm_num [col2w_get_phi_vn, col2w_get_v_c_interior, c1S, ratSqrt_3600, pyMin],
          pyBind_ok]
        conv_lhs => rw [if_pos (show (2754/25 : ℚ) ≥
            1.5 * col2w_get_v_u (c1S (13/12) 9) 8 (648/649) (25/4) from by
          norm_num [col2w_get_v_u, c1S])]
        conv_lhs => rw [set_d_colmumn_eval, pyBind_ok]
        norm_num [c1S]
    _ = col2wDec 17 (c1S (11/12) 7) (648/649) (25/4) 8 "interior" := by
        conv_lhs => rw [col2wDec,
          show col2w_get_phi_vn (c1S 1 8) 8 "interior" = .ok (2304/25) from by
            norm_num [col2w_get_phi_vn, col2w_get_v_c_interior, c1S, ratSqrt_3600, pyMin],
          pyBind_ok]
        conv_lhs => rw [if_pos (show (2304/25 : ℚ) ≥
            1.5 * col2w_get_v_u (c1S 1 8) 8 (648/649) (25/4) from by
          norm_num [col2w_get_v_u, c1S])]
        conv_lhs => rw [set_d_colmumn_eval, pyBind_ok]
        norm_num [c1S]
    _ = col2wDec 16 (c1S (5/6) 6) (648/649) (25/4) 8 "interior" := by
        conv_lhs => rw [col2wDec,
          show col2w_get_phi_vn (c1S (11/12) 7) 8 "interior" = .ok (378/5) from by
            norm_num [col2w_get_phi_vn, col2w_get_v_c_interior, c1S, ratSqrt_3600, pyMin],
          pyBind_ok]
        conv_lhs => rw [if_pos (show (378/5 : ℚ) ≥
            1.5 * col2w_get_v_u (c1S (11/12) 7) 8 (648/649) (25/4) from by
          norm_num [col2w_get_v_u, c1S])]
        conv_lhs => rw [set_d_colmumn_eval, pyBind_ok]
        norm_num [c1S]
    _ = col2wDec 15 (c1S (3/4) 5) (648/649) (25/4) 8 "interior" := by
        conv_lhs => rw [col2wDec,
          show col2w_get_phi_vn (c1S (5/6) 6) 8 "interior" = .ok (1512/25) from by
            norm_num [col2w_get_phi_vn, col2w_get_v_c_interior, c1S, ratSqrt_3600, pyMin],
          pyBind_ok]
        conv_lhs => rw [if_pos (show (1512/25 : ℚ) ≥
            1.5 * col2w_get_v_u (c1S (5/6) 6) 8 (648/649) (25/4) from by
          norm_num [col2w_get_v_u, c1S])]
        conv_lhs => rw [set_d_colmumn_eval, pyBind_ok]
        norm_num [c1S]
    _ = col2wDec 14 (c1S (2/3) 4) (648/649) (25/4) 8 "interior" := by
        conv_lhs => rw [col2wDec,
          show col2w_get_phi_vn (c1S (3/4) 5) 8 "interior" = .ok (234/5) from by
            norm_num [col2w_get_phi_vn, col2w_get_v_c_interior, c1S, ratSqrt_3600, pyMin],
          pyBind_ok]
        conv_lhs => rw [if_pos (show (234/5 : ℚ) ≥
            1.5 * col2w_get_v_u (c1S (3/4) 5) 8 (648/649) (25/4) from by
          norm_num [col2w_get_v_u, c1S])]
        conv_lhs => rw [set_d_colmumn_eval, pyBind_ok]
        norm_num [c1S]
    _ = col2wDec 13 (c1S (7/12) 3) (648/649) (25/4) 8 "interior" := by
        conv_lhs => rw [col2wDec,
          show col2w_get_phi_vn (c1S (2/3) 4) 8 "interior" = .ok (864/25) from by
            norm_num [col2w_get_phi_vn, col2w_get_v_c_interior, c1S, ratSqrt_3600, pyMin],
          pyBind_ok]
        conv_lhs => rw [if_pos (show (864/25 : ℚ) ≥
            1.5 * col2w_get_v_u (c1S (2/3) 4) 8 (648/649) (25/4) from by
          norm_num [col2w_get_v_u, c1S])]
        conv_lhs => rw [set_d_colmumn_eval, pyBind_ok]
        norm_num [c1S]
    _ = col2wDec 12 (c1S (1/2) 2) (648/649) (25/4) 8 "interior" := by
        conv_lhs => rw [col2wDec,
          show col2w_get_phi_vn (c1S (7/12) 3) 8 "interior" = .ok (594/25) from by
            norm_num [col2w_get_phi_vn, col2w_get_v_c_interior, c1S, ratSqrt_3600, pyMin],
          pyBind_ok]
        conv_lhs => rw [if_pos (show (594/25 : ℚ) ≥
            1.5 * col2w_get_v_u (c1S (7/12) 3) 8 (648/649) (25/4) from by
          norm_num [col2w_get_v_u, c1S])]
        conv_lhs => rw [set_d_colmumn_eval, pyBind_ok]
        norm_num [c1S]
    _ = col2wDec 11 (c1S (5/12) 1) (648/649) (25/4) 8 "interior" := by
        conv_lhs => rw [col2wDec,
          show col2w_get_phi_vn (c1S (1/2) 2) 8 "interior" = .ok (72/5) from by
            norm_num [col2w_get_phi_vn, col2w_get_v_c_interior, c1S, ratSqrt_3600, pyMin],
          pyBind_ok]
        conv_lhs => rw [if_pos (show (72/5 : ℚ) ≥
            1.5 * col2w_get_v_u (c1S (1/2) 2) 8 (648/649) (25/4) from by
          norm_num [col2w_get_v_u, c1S])]
        conv_lhs => rw [set_d_colmumn_eval, pyBind_ok]
        norm_num [c1S]
    _ = .ok (c1S (5/12) 1) := by
        conv_lhs => rw [col2wDec,
          show col2w_get_phi_vn (c1S (5/12) 1) 8 "interior" = .ok (126/25) from by
            norm_num [col2w_get_phi_vn, col2w_get_v_c_interior, c1S, ratSqrt_3600, pyMin],
          pyBind_ok]
        conv_lhs => rw [if_neg (show ¬ ((126/25 : ℚ) ≥
            1.5 * col2w_get_v_u (c1S (5/12) 1) 8 (648/649) (25/4)) from by
          norm_num [col2w_get_v_u, c1S])]

theorem c1_2w : check_two_way_shear 30 (c1S 2 20)
    (factored_soil_pressure (3375/649) 0 (25/4)) (25/4) 8 "interior" =
    .ok (c1S (5/12) 1) := by
  conv_lhs => rw [check_two_way_shear, c1_inc, pyBind_ok, c1_dec]

theorem c1_1w : col1wDec 30 (c1S (5/12) 1)
    (factored_soil_pressure (3375/649) 0 (25/4)) 8 = .ok (c1S (5/12) 1) := by
  conv_lhs => rw [c1_hq]
  conv_lhs => rw [col1wDec]
  conv_lhs => rw [if_neg (show ¬ (col1w_get_phi_vn (c1S (5/12) 1) ≥
      1.5 * col1w_get_v_u (c1S (5/12) 1) (648/649) 8) from by
    norm_num [col1w_get_phi_vn, col1w_get_v_u, c1S, ratSqrt_3600])]

theorem c1_check1w : check_one_way_shear_col 30 (c1S (5/12) 1)
    (factored_soil_pressure (3375/649) 0 (25/4)) 8 = .ok (c1S (5/12) 1) := by
  conv_lhs => rw [check_one_way_shear_col, c1_1w, pyBind_ok]
  conv_lhs => rw [if_neg (show ¬ (col1w_get_phi_vn (c1S (5/12) 1) <
      col1w_get_v_u (c1S (5/12) 1) (factored_soil_pressure (3375/649) 0 (25/4)) 8)
    from by
    norm_num [col1w_get_phi_vn, col1w_get_v_u, c1S, factored_soil_pressure,
      ratSqrt_3600])]

theorem c1_steel : col_get_steel_reqd (c1S (5/12) 1)
    (factored_soil_pressure (3375/649) 0 (25/4))
    (((c1S (5/12) 1).length - 2 / 3) / 2) ((c1S (5/12) 1).width) = .ok (51/200) := by
  have hceil : ⌈(5000/59 : ℚ)⌉ = 85 := by norm_num [Int.ceil_eq_iff]
  norm_num [col_get_steel_reqd, solve_for_rho, get_k_bar, get_phi, pySqrt, round_up,
    calc_reqd_steel, c1S, factored_soil_pressure, ratSqrt_2500000000, hceil]

theorem c1_minreinf : get_min_reinforcing (c1S (5/12) 1) ((c1S (5/12) 1).width * 12)
    (51/200) = .ok (27/100) := by
  norm_num [get_min_reinforcing, get_min_beam, get_min_slab, four_thirds_reqd,
    pyMax, pyMin, c1S, ratSqrt_3600]

/-- C1: a design request that completes CAN be under-designed.  Column
request: `d_l = 3375/649 ≈ 5.2` kip, `l_l = 0`, ASP 1400 psf, max width
2.5 ft, 8-inch interior column, `f_c = 3600` psi, Grade 60, precision
1/2.  The punching-shear decrement loop shaves the thickness from 2 ft
to 5/12 ft (`d = 1` in) and exits with capacity 5.04 < required ≈ 5.68
kips (no re-check follows, the log even prints "O.K."); the one-way
check then passes without touching `d`, the steel stage completes, and
the request returns a finished design whose two-way capacity is still
below the required punching shear. -/
theorem col_two_way_decrement_underdesigns :
    columnFooting 30 (1/2) 8 (3375/649) 0 3600 60 1400 4 (some (5/2)) "interior"
      "nw" 150 100 = .ok (c1S (5/12) 1, 27/100, 27/100) ∧
    col2w_get_phi_vn (c1S (5/12) 1) 8 "interior" = .ok (126/25) ∧
    (126/25 : ℚ) < col2w_get_v_u (c1S (5/12) 1) 8
      (factored_soil_pressure (3375/649) 0 (25/4)) (25/4) := by
  refine ⟨?_, ?_, ?_⟩
  · conv_lhs => rw [columnFooting, footing_init_col_3600_60, pyBind_ok]
    conv_lhs => rw [design_column_footing, c1_dims, pyBind_ok]
    norm_num []
    conv_lhs => rw [colSec60_with_c1]
    conv_lhs => rw [c1_2w, pyBind_ok]
    conv_lhs => rw [c1_check1w, pyBind_ok]
    conv_lhs => rw [c1_steel, pyBind_ok]
    conv_lhs => rw [c1_minreinf, pyBind_ok]
    conv_lhs => rw [if_pos (show (c1S (5/12) 1).width = (c1S (5/12) 1).length
      from by norm_num [c1S])]
  · norm_num [col2w_get_phi_vn, col2w_get_v_c_interior, c1S, ratSqrt_3600, pyMin]
  · norm_num [col2w_get_v_u, c1S, factored_soil_pressure]

/-! ### The narrative log sink (C9)

`source.py` threads a text sink (`self.log`, written with `log.write(...)`
at each narrated step) through the whole design computation.  The
`...L` definitions below re-embed the pipeline with that sink made
explicit: a sink is any type `σ` with a `write : σ → String → σ`
operation (so `σ := Unit, write := fun g _ => g` is a sink that discards
all writes), and every definition returns its computed value paired with
the written-to sink.  The place and number of the writes follows the
source; the message text is abbreviated to short labels, since the claim
under study concerns only whether the sink can influence a computed
value, never the message contents. -/

/-- A computation that only appends to the sink erases to its pure
counterpart. -/
theorem tap_fst {σ α : Type} (m : Except PyErr α) (f : α → σ) :
    (pyBind m fun a => Except.ok (a, f a)).map Prod.fst = m := by
  cases m <;> rfl

/-- Congruence for `pyBind` under sink erasure. -/
theorem map_fst_pyBind {σ α β : Type} (m : Except PyErr (α × σ))
    (m0 : Except PyErr α) (f : α × σ → Except PyErr (β × σ))
    (f0 : α → Except PyErr β) (hm : m.map Prod.fst = m0)
    (hf : ∀ a g, (f (a, g)).map Prod.fst = f0 a) :
    (pyBind m f).map Prod.fst = pyBind m0 f0 := by
  cases m with
  | error e => rw [← hm]; rfl
  | ok ag => rw [← hm]; exact hf ag.1 ag.2

/-- A trailing write after a sink-threading computation erases away. -/
theorem tapped_fst {σ α : Type} (m : Except PyErr (α × σ)) (m0 : Except PyErr α)
    (f : α × σ → σ) (hm : m.map Prod.fst = m0) :
    (pyBind m fun ag => Except.ok (ag.1, f ag)).map Prod.fst = m0 := by
  cases m with
  | error e => rw [← hm]; rfl
  | ok ag => rw [← hm]; rfl

theorem set_lamL_fst {σ : Type} (write : σ → String → σ) (ct : String) (g : σ) :
    (set_lamL write ct g).map Prod.fst = set_lam ct := by
  rw [set_lamL]; exact tap_fst _ _

theorem get_steel_propsL_fst {σ : Type} (write : σ → String → σ) (grade : ℤ)
    (g : σ) : (get_steel_propsL write grade g).map Prod.fst =
      get_steel_props grade := by
  rw [get_steel_propsL]; exact tap_fst _ _

theorem set_dL_fst {σ : Type} (write : σ → String → σ) (s : Footing)
    (ft bs : PyVal) (g : σ) :
    (set_dL write s ft bs g).map Prod.fst = set_d s ft bs := by
  rw [set_dL]; exact tap_fst _ _

theorem get_phiL_fst {σ : Type} (write : σ → String → σ) (s : Footing) (rho : ℚ)
    (g : σ) : (get_phiL write s rho g).1 = get_phi s rho := by
  simp only [get_phiL, get_phi]
  split_ifs <;> rfl

theorem solve_for_rhoL_fst {σ : Type} (write : σ → String → σ) (s : Footing)
    (k_bar : ℚ) (g : σ) :
    (solve_for_rhoL write s k_bar g).map Prod.fst = solve_for_rho s k_bar := by
  simp only [solve_for_rhoL, solve_for_rho]
  cases pySqrt (s.f_y ^ 2 - 4 * (-0.59 * s.f_y ^ 2 / s.f_c) * (-k_bar * 1000)) with
  | error e => rfl
  | ok root =>
    simp only [pyBind_ok, get_phiL_fst]
    split_ifs <;> rfl

theorem get_min_slabL_fst {σ : Type} (write : σ → String → σ) (s : Footing)
    (b : ℚ) (g : σ) :
    (get_min_slabL write s b g).map Prod.fst = get_min_slab s b := by
  rw [get_min_slabL]; exact tap_fst _ _

theorem get_min_reinforcingL_fst {σ : Type} (write : σ → String → σ)
    (s : Footing) (b r : ℚ) (g : σ) :
    (get_min_reinforcingL write s b r g).map Prod.fst =
      get_min_reinforcing s b r := by
  simp only [get_min_reinforcingL, get_min_reinforcing, get_min_beamL,
    get_min_slabL, four_thirds_reqdL]
  cases get_min_slab s b with
  | error e => rfl
  | ok v =>
    simp only [pyBind_ok]
    split_ifs <;> rfl

theorem footing_initL_fst {σ : Type} (write : σ → String → σ) (f_c w_c : ℚ)
    (conc_type : String) (grade : ℤ) (ftng_type : String) (g : σ) :
    (footing_initL write f_c w_c conc_type grade ftng_type g).map Prod.fst =
      footing_init f_c w_c conc_type grade ftng_type := by
  simp only [footing_initL, footing_init, set_lamL]
  cases set_lam conc_type with
  | error e => rfl
  | ok lam =>
    simp only [pyBind_ok, get_steel_propsL]
    cases get_steel_props grade with
    | error e => rfl
    | ok st =>
      simp only [pyBind_ok]
      dsimp only [set_beta_1L]
      split_ifs with h1 h2
      · rw [set_dL]; exact tap_fst _ _
      · rw [set_dL]; exact tap_fst _ _
      · rfl

theorem wallShearDecL_fst {σ : Type} (write : σ → String → σ) :
    ∀ (fuel : ℕ) (s : Footing) (q_u req_width wall_width : ℚ) (g : σ),
      (wallShearDecL write fuel s q_u req_width wall_width g).map Prod.fst =
        wallShearDec fuel s q_u req_width wall_width := by
  intro fuel
  induction fuel with
  | zero => intro s q_u req_width wall_width g; rfl
  | succ n ih =>
    intro s q_u req_width wall_width g
    rw [wallShearDecL, wallShearDec]
    split_ifs with h
    · simp only [set_dL]
      cases set_d { s with h := s.h - 1/12 } (PyVal.str "wall") (PyVal.num 8) with
      | error e => rfl
      | ok s1 =>
        simp only [pyBind_ok]
        exact ih s1 q_u req_width wall_width _
    · rfl

theorem check_one_way_shear_wallL_fst {σ : Type} (write : σ → String → σ)
    (fuel : ℕ) (s : Footing) (q_u req_width wall_width : ℚ) (g : σ) :
    (check_one_way_shear_wallL write fuel s q_u req_width wall_width
        g).map Prod.fst =
      check_one_way_shear_wall fuel s q_u req_width wall_width := by
  rw [check_one_way_shear_wallL, check_one_way_shear_wall]
  refine map_fst_pyBind _ _ _ _
    (wallShearDecL_fst write fuel s q_u req_width wall_width _) ?_
  intro a g1
  dsimp only
  split_ifs <;> rfl

theorem get_req_widthL_fst {σ : Type} (write : σ → String → σ) (s : Footing)
    (d_l l_l a_s_p w_e bottom precision : ℚ) (g : σ) :
    (get_req_widthL write s d_l l_l a_s_p w_e bottom precision g).map Prod.fst =
      get_req_width s d_l l_l a_s_p w_e bottom precision := by
  rw [get_req_widthL]; exact tap_fst _ _

theorem wall_get_steel_reqdL_fst {σ : Type} (write : σ → String → σ)
    (s : Footing) (q_u wall_width : ℚ) (wall_type : String) (g : σ) :
    (wall_get_steel_reqdL write s q_u wall_width wall_type g).map Prod.fst =
      wall_get_steel_reqd s q_u wall_width wall_type := by
  rw [wall_get_steel_reqdL, wall_get_steel_reqd]
  split_ifs with h1 h2
  · simp only [pyBind_ok]
    dsimp only [get_k_barL]
    refine map_fst_pyBind _ _ _ _ (solve_for_rhoL_fst write s _ _) ?_
    intro r g1
    rfl
  · simp only [pyBind_ok]
    dsimp only [get_k_barL]
    refine map_fst_pyBind _ _ _ _ (solve_for_rhoL_fst write s _ _) ?_
    intro r g1
    rfl
  · rfl

theorem design_wall_footingL_fst {σ : Type} (write : σ → String → σ) (fuel : ℕ)
    (s : Footing) (precision wall_width : ℚ) (wall_type : String)
    (d_l l_l a_s_p bottom w_e : ℚ) (g : σ) :
    (design_wall_footingL write fuel s precision wall_width wall_type d_l l_l
        a_s_p bottom w_e g).map Prod.fst =
      design_wall_footing fuel s precision wall_width wall_type d_l l_l a_s_p
        bottom w_e := by
  rw [design_wall_footingL, design_wall_footing]
  refine map_fst_pyBind _ _ _ _
    (get_req_widthL_fst write s d_l l_l a_s_p w_e bottom precision g) ?_
  intro w g1
  dsimp only [factored_soil_pressureL]
  refine map_fst_pyBind _ _ _ _
    (check_one_way_shear_wallL_fst write fuel _ _ _ _ _) ?_
  intro s2 g2
  dsimp only
  refine map_fst_pyBind _ _ _ _
    (wall_get_steel_reqdL_fst write _ _ _ _ _) ?_
  intro a g3
  dsimp only
  refine map_fst_pyBind _ _ _ _
    (get_min_reinforcingL_fst write _ _ _ _) ?_
  intro v g4
  rfl

theorem wallFootingL_fst {σ : Type} (write : σ → String → σ) (fuel : ℕ)
    (precision wall_width : ℚ) (wall_type : String) (d_l l_l f_c : ℚ)
    (grade : ℤ) (a_s_p bottom : ℚ) (conc_type : String) (w_c w_e : ℚ) (g : σ) :
    (wallFootingL write fuel precision wall_width wall_type d_l l_l f_c grade
        a_s_p bottom conc_type w_c w_e g).map Prod.fst =
      wallFooting fuel precision wall_width wall_type d_l l_l f_c grade a_s_p
        bottom conc_type w_c w_e := by
  rw [wallFootingL, wallFooting]
  refine map_fst_pyBind _ _ _ _
    (footing_initL_fst write f_c w_c conc_type grade "wall" g) ?_
  intro s0 g0
  exact design_wall_footingL_fst write fuel s0 precision wall_width wall_type
    d_l l_l a_s_p bottom w_e g0

theorem get_dimensionsL_fst {σ : Type} (write : σ → String → σ) (s : Footing)
    (d_l l_l a_s_p w_e bottom : ℚ) (max_width : Option ℚ) (precision : ℚ)
    (g : σ) :
    (get_dimensionsL write s d_l l_l a_s_p w_e bottom max_width precision
        g).map Prod.fst =
      get_dimensions s d_l l_l a_s_p w_e bottom max_width precision := by
  rw [get_dimensionsL]; exact tap_fst _ _

theorem col2wIncL_fst {σ : Type} (write : σ → String → σ) :
    ∀ (fuel : ℕ) (s : Footing) (q_u area width : ℚ) (col_loc : String) (g : σ),
      (col2wIncL write fuel s q_u area width col_loc g).map Prod.fst =
        col2wInc fuel s q_u area width col_loc := by
  intro fuel
  induction fuel with
  | zero => intro s q_u area width col_loc g; rfl
  | succ n ih =>
    intro s q_u area width col_loc g
    rw [col2wIncL, col2wInc]
    simp only [col2w_get_phi_vnL]
    cases col2w_get_phi_vn s width col_loc with
    | error e => rfl
    | ok v =>
      simp only [pyBind_ok]
      split_ifs with h
      · simp only [set_dL]
        cases set_d { s with h := s.h + 1/12 } (PyVal.str "colmumn")
            (PyVal.num 8) with
        | error e => rfl
        | ok s1 =>
          simp only [pyBind_ok]
          exact ih s1 q_u area width col_loc _
      · rfl

theorem col2wDecL_fst {σ : Type} (write : σ → String → σ) :
    ∀ (fuel : ℕ) (s : Footing) (q_u area width : ℚ) (col_loc : String) (g : σ),
      (col2wDecL write fuel s q_u area width col_loc g).map Prod.fst =
        col2wDec fuel s q_u area width col_loc := by
  intro fuel
  induction fuel with
  | zero => intro s q_u area width col_loc g; rfl
  | succ n ih =>
    intro s q_u area width col_loc g
    rw [col2wDecL, col2wDec]
    simp only [col2w_get_phi_vnL]
    cases col2w_get_phi_vn s width col_loc with
    | error e => rfl
    | ok v =>
      simp only [pyBind_ok]
      split_ifs with h
      · simp only [set_dL]
        cases set_d { s with h := s.h - 1/12 } (PyVal.str "colmumn")
            (PyVal.num 8) with
        | error e => rfl
        | ok s1 =>
          simp only [pyBind_ok]
          exact ih s1 q_u area width col_loc _
      · rfl

theorem check_two_way_shearL_fst {σ : Type} (write : σ → String → σ) (fuel : ℕ)
    (s : Footing) (q_u area width : ℚ) (col_loc : String) (g : σ) :
    (check_two_way_shearL write fuel s q_u area width col_loc g).map Prod.fst =
      check_two_way_shear fuel s q_u area width col_loc := by
  rw [check_two_way_shearL, check_two_way_shear]
  refine map_fst_pyBind _ _ _ _
    (col2wIncL_fst write fuel s q_u area width col_loc _) ?_
  intro s1 g1
  dsimp only
  exact tapped_fst _ _ _ (col2wDecL_fst write fuel s1 q_u area width col_loc g1)

theorem col1wDecL_fst {σ : Type} (write : σ → String → σ) :
    ∀ (fuel : ℕ) (s : Footing) (q_u col_size : ℚ) (g : σ),
      (col1wDecL write fuel s q_u col_size g).map Prod.fst =
        col1wDec fuel s q_u col_size := by
  intro fuel
  induction fuel with
  | zero => intro s q_u col_size g; rfl
  | succ n ih =>
    intro s q_u col_size g
    rw [col1wDecL, col1wDec]
    split_ifs with h
    · simp only [set_dL]
      cases set_d { s with h := s.h - 1/12 } (PyVal.num (s.h - 1/12))
          (PyVal.str "column") with
      | error e => rfl
      | ok s1 =>
        simp only [pyBind_ok]
        exact ih s1 q_u col_size _
    · rfl

theorem check_one_way_shear_colL_fst {σ : Type} (write : σ → String → σ)
    (fuel : ℕ) (s : Footing) (q_u col_size : ℚ) (g : σ) :
    (check_one_way_shear_colL write fuel s q_u col_size g).map Prod.fst =
      check_one_way_shear_col fuel s q_u col_size := by
  rw [check_one_way_shear_colL, check_one_way_shear_col]
  refine map_fst_pyBind _ _ _ _
    (col1wDecL_fst write fuel s q_u col_size _) ?_
  intro s1 g1
  dsimp only
  split_ifs with h
  · cases round_up_to_precision (col1w_get_v_u s1 q_u col_size * 1000 /
        (2 * s1.lam * 0.75 * ratSqrt s1.f_c * s1.width * 12)) 0.5 with
    | none => rfl
    | some d_new => rfl
  · rfl

theorem col_get_steel_reqdL_fst {σ : Type} (write : σ → String → σ)
    (s : Footing) (q_u l w : ℚ) (g : σ) :
    (col_get_steel_reqdL write s q_u l w g).map Prod.fst =
      col_get_steel_reqd s q_u l w := by
  rw [col_get_steel_reqdL, col_get_steel_reqd]
  dsimp only [get_k_barL]
  refine map_fst_pyBind _ _ _ _ (solve_for_rhoL_fst write s _ _) ?_
  intro r g1
  rfl

theorem design_column_footingL_fst {σ : Type} (write : σ → String → σ)
    (fuel : ℕ) (s : Footing) (precision col_width d_l l_l a_s_p bottom : ℚ)
    (max_width : Option ℚ) (col_loc : String) (w_e : ℚ) (g : σ) :
    (design_column_footingL write fuel s precision col_width d_l l_l a_s_p
        bottom max_width col_loc w_e g).map Prod.fst =
      design_column_footing fuel s precision col_width d_l l_l a_s_p bottom
        max_width col_loc w_e := by
  rw [design_column_footingL, design_column_footing]
  refine map_fst_pyBind _ _ _ _
    (get_dimensionsL_fst write s d_l l_l a_s_p w_e bottom max_width precision
      g) ?_
  intro lw g1
  dsimp only [factored_soil_pressureL]
  refine map_fst_pyBind _ _ _ _
    (check_two_way_shearL_fst write fuel _ _ _ _ _ _) ?_
  intro s1 g2
  dsimp only
  refine map_fst_pyBind _ _ _ _
    (check_one_way_shear_colL_fst write fuel _ _ _ _) ?_
  intro s2 g3
  dsimp only
  refine map_fst_pyBind _ _ _ _
    (col_get_steel_reqdL_fst write _ _ _ _ _) ?_
  intro a g4
  dsimp only
  refine map_fst_pyBind _ _ _ _
    (get_min_reinforcingL_fst write _ _ _ _) ?_
  intro v g5
  dsimp only
  split_ifs with h
  · refine map_fst_pyBind _ _ _ _
      (col_get_steel_reqdL_fst write _ _ _ _ _) ?_
    intro a2 g6
    dsimp only
    refine map_fst_pyBind _ _ _ _
      (get_min_reinforcingL_fst write _ _ _ _) ?_
    intro v2 g7
    rfl
  · rfl

theorem columnFootingL_fst {σ : Type} (write : σ → String → σ) (fuel : ℕ)
    (precision col_width d_l l_l f_c : ℚ) (grade : ℤ) (a_s_p bottom : ℚ)
    (max_width : Option ℚ) (col_loc : String) (conc_type : String)
    (w_c w_e : ℚ) (g : σ) :
    (columnFootingL write fuel precision col_width d_l l_l f_c grade a_s_p
        bottom max_width col_loc conc_type w_c w_e g).map Prod.fst =
      columnFooting fuel precision col_width d_l l_l f_c grade a_s_p bottom
        max_width col_loc conc_type w_c w_e := by
  rw [columnFootingL, columnFooting]
  refine map_fst_pyBind _ _ _ _
    (footing_initL_fst write f_c w_c conc_type grade "column" g) ?_
  intro s0 g0
  exact design_column_footingL_fst write fuel s0 precision col_width d_l l_l
    a_s_p bottom max_width col_loc w_e g0

/-- C9: the narrative log sink is write-only with respect to the design
computation.  For any two sink implementations (any types `σ₁`, `σ₂`
with write operations `w₁`, `w₂` — including a sink that discards all
writes, such as `σ := Unit`) and any two initial sinks, running the same
wall or column design request through the sink-threaded pipeline yields
computed results (`Prod.fst` of the outcome: final state, dimensions,
thickness, effective depth and all steel areas) equal in the two runs —
indeed equal to the sink-free pipeline's result. -/
theorem log_sink_is_write_only {σ₁ σ₂ : Type} (w₁ : σ₁ → String → σ₁)
    (w₂ : σ₂ → String → σ₂) (g₁ : σ₁) (g₂ : σ₂) (fuel : ℕ)
    (precision wall_width col_width : ℚ) (wall_type : String) (d_l l_l f_c : ℚ)
    (grade : ℤ) (a_s_p bottom : ℚ) (max_width : Option ℚ) (col_loc : String)
    (conc_type : String) (w_c w_e : ℚ) :
    ((wallFootingL w₁ fuel precision wall_width wall_type d_l l_l f_c grade
          a_s_p bottom conc_type w_c w_e g₁).map Prod.fst =
        wallFooting fuel precision wall_width wall_type d_l l_l f_c grade a_s_p
          bottom conc_type w_c w_e ∧
      (wallFootingL w₂ fuel precision wall_width wall_type d_l l_l f_c grade
          a_s_p bottom conc_type w_c w_e g₂).map Prod.fst =
        wallFooting fuel precision wall_width wall_type d_l l_l f_c grade a_s_p
          bottom conc_type w_c w_e) ∧
    ((columnFootingL w₁ fuel precision col_width d_l l_l f_c grade a_s_p bottom
          max_width col_loc conc_type w_c w_e g₁).map Prod.fst =
        columnFooting fuel precision col_width d_l l_l f_c grade a_s_p bottom
          max_width col_loc conc_type w_c w_e ∧
      (columnFootingL w₂ fuel precision col_width d_l l_l f_c grade a_s_p
          bottom max_width col_loc conc_type w_c w_e g₂).map Prod.fst =
        columnFooting fuel precision col_width d_l l_l f_c grade a_s_p bottom
          max_width col_loc conc_type w_c w_e) := by
  refine ⟨⟨?_, ?_⟩, ?_, ?_⟩
  · apply wallFootingL_fst
  · apply wallFootingL_fst
  · apply columnFootingL_fst
  · apply columnFootingL_fst
